import Mathlib

/-!
Verification of the OmniDoc documentation-generation system against its
natural-language specification.

The Python sources are shallowly embedded: pure computations become Lean
functions, in-place mutation becomes explicit state passing, SQLite tables
become insertion-ordered association lists, Python floats become exact
rationals (each use site notes where the two could diverge), Python `dict`s
become insertion-ordered association lists (CPython preserves insertion
order), and raising code returns `Except`.
-/

namespace OmniDoc

/-! ## Python-dictionary and numeric helpers -/

/-- Python dict assignment `d[k] = v` on an insertion-ordered association
list: an existing key keeps its position and gets the new value, a new key
is appended at the end. -/
def dictSet {α : Type} (l : List (String × α)) (k : String) (v : α) :
    List (String × α) :=
  match l with
  | [] => [(k, v)]
  | (k', v') :: rest =>
    if k' = k then (k, v) :: rest else (k', v') :: dictSet rest k v

/-- Python `int(q)` for a rational: truncation toward zero (`Int.div` of the
reduced numerator by the denominator truncates toward zero, as Python's
`int()` does on floats).  The Python sources compute on IEEE doubles; every
concrete input appearing in a theorem below was checked to give the same
integer under double and exact rational arithmetic. -/
def pyInt (q : ℚ) : ℤ :=
  Int.tdiv q.num (q.den : ℤ)

theorem lookup_dictSet {α : Type} (l : List (String × α)) (k k' : String) (v : α) :
    (dictSet l k v).lookup k' = if k' = k then some v else l.lookup k' := by
  induction l with
  | nil =>
    by_cases h : k' = k
    · subst h; simp [dictSet, List.lookup]
    · simp [dictSet, List.lookup, beq_eq_false_iff_ne.mpr h, h]
  | cons hd tl ih =>
    obtain ⟨a, b⟩ := hd
    by_cases hak : a = k
    · subst hak
      by_cases h : k' = a
      · subst h; simp [dictSet, List.lookup]
      · simp [dictSet, List.lookup, beq_eq_false_iff_ne.mpr h, h]
    · by_cases h : k' = a
      · subst h
        simp [dictSet, hak, List.lookup]
      · simp [dictSet, hak, List.lookup, beq_eq_false_iff_ne.mpr h, h, ih]

theorem mem_keys_dictSet {α : Type} (l : List (String × α)) (k k' : String) (v : α) :
    k' ∈ (dictSet l k v).map Prod.fst ↔ k' = k ∨ k' ∈ l.map Prod.fst := by
  induction l with
  | nil => simp [dictSet]
  | cons hd tl ih =>
    obtain ⟨a, b⟩ := hd
    by_cases hak : a = k
    · subst hak
      simp [dictSet]
    · simp only [dictSet, if_neg hak, List.map_cons, List.mem_cons, ih]
      tauto

/-! ## `src/rate_limit/queue_manager.py` — the synchronous `RequestQueue`

State of a `RequestQueue` instance.  `request_times` is the deque of recorded
request timestamps (seconds), `cache` the insertion-ordered response cache
mapping the Python cache key `f"{func.__name__}_{args}_{kwargs}"` to the
cached result (results abstracted as strings).  Wall-clock readings
(`time.time()`) are passed in as explicit parameters; sleeping changes no
state other than making later clock readings larger. -/
structure RequestQueue where
  original_max_rate : ℚ
  max_rate : ℤ
  period : ℚ
  request_times : List ℚ
  cache : List (String × String)
  deriving DecidableEq, Repr

/-- `RequestQueue.__init__(max_rate, period, safety_margin)` (Python defaults:
50, 60, 0.95): stores the configured rate and `int(max_rate * safety_margin)`
as the effective `max_rate`. -/
def RequestQueue.init (max_rate period safety_margin : ℚ) : RequestQueue :=
  { original_max_rate := max_rate
    max_rate := pyInt (max_rate * safety_margin)
    period := period
    request_times := []
    cache := [] }

/-- `_clean_old_requests`: pop timestamps older than the period from the
front of the deque, stopping at the first recent one. -/
def cleanOldRequests (times : List ℚ) (current period : ℚ) : List ℚ :=
  match times with
  | [] => []
  | t :: rest =>
    if t < current - period then cleanOldRequests rest current period
    else t :: rest

/-- `_wait_if_needed`: clean the window at entry time `tEnter`; if the window
is at or above the effective max, sleep until the oldest entry leaves the
window and clean again (at the post-sleep clock reading, which is `tRecord`,
the reading also appended as this request's timestamp); if merely at or above
the 80% threshold, a jitter sleep changes no state.  Finally the request is
recorded. -/
def RequestQueue.waitIfNeeded (q : RequestQueue) (tEnter tRecord : ℚ) :
    RequestQueue :=
  let cleaned := cleanOldRequests q.request_times tEnter q.period
  let threshold := pyInt ((q.max_rate : ℚ) * (8 / 10))
  let cleaned2 :=
    if threshold ≤ (cleaned.length : ℤ) then
      if q.max_rate ≤ (cleaned.length : ℤ) then
        cleanOldRequests cleaned tRecord q.period
      else cleaned
    else cleaned
  { q with request_times := cleaned2 ++ [tRecord] }

/-- `RequestQueue.execute(func, *args, **kwargs)`.  `key` is the derived
cache key, `outcome` the underlying call's result (`.error` models the call
raising).  A cache hit returns the cached value without touching the window;
a miss throttles, runs the call, and on success caches the result after
evicting the first-inserted entry whenever the cache holds more than 100
entries; a raising call caches nothing and re-raises. -/
def RequestQueue.execute (q : RequestQueue) (key : String) (tEnter tRecord : ℚ)
    (outcome : Except String String) : RequestQueue × Except String String :=
  match q.cache.lookup key with
  | some v => (q, .ok v)
  | none =>
    let q1 := q.waitIfNeeded tEnter tRecord
    match outcome with
    | .ok result =>
      let cache1 := if 100 < q1.cache.length then q1.cache.drop 1 else q1.cache
      ({ q1 with cache := cache1 ++ [(key, result)] }, .ok result)
    | .error e => (q1, .error e)

/-- The dictionary `RequestQueue.get_stats()` returns.  `utilization_percent`
is Python's `round(x, 1)` (banker's rounding at the .05 boundary). -/
structure QueueStats where
  requests_in_window : ℕ
  max_rate : ℤ
  original_max_rate : ℚ
  cache_size : ℕ
  utilization_percent : ℚ
  deriving DecidableEq, Repr

/-- Python `round(q)`: round half to even. -/
def pyRoundEven (q : ℚ) : ℤ :=
  let f := ⌊q⌋
  let r := q - (f : ℚ)
  if r < 1 / 2 then f
  else if 1 / 2 < r then f + 1
  else if Even f then f else f + 1

/-- `RequestQueue.get_stats()` at clock reading `tNow`: cleans the window in
place, then reports it.  Returns the updated state alongside the stats. -/
def RequestQueue.get_stats (q : RequestQueue) (tNow : ℚ) :
    RequestQueue × QueueStats :=
  let times := cleanOldRequests q.request_times tNow q.period
  ({ q with request_times := times },
   { requests_in_window := times.length
     max_rate := q.max_rate
     original_max_rate := q.original_max_rate
     cache_size := q.cache.length
     utilization_percent :=
       if 0 < q.max_rate then
         (pyRoundEven ((times.length : ℚ) / (q.max_rate : ℚ) * 100 * 10) : ℚ) / 10
       else 0 })

/-! ## `src/rate_limit/async_queue_manager.py` — the asynchronous twin

`AsyncRequestQueue` is a line-for-line twin of `RequestQueue` (cooperative
lock instead of an OS lock; the lock discipline vanishes in this sequential
model), so its embedding repeats the same definitions on its own state
type. -/
structure AsyncRequestQueue where
  original_max_rate : ℚ
  max_rate : ℤ
  period : ℚ
  request_times : List ℚ
  cache : List (String × String)
  deriving DecidableEq, Repr

/-- `AsyncRequestQueue.__init__` (defaults 50, 60, 0.95). -/
def AsyncRequestQueue.init (max_rate period safety_margin : ℚ) : AsyncRequestQueue :=
  { original_max_rate := max_rate
    max_rate := pyInt (max_rate * safety_margin)
    period := period
    request_times := []
    cache := [] }

/-- `AsyncRequestQueue._wait_if_needed` (identical algorithm, `await`ed). -/
def AsyncRequestQueue.waitIfNeeded (q : AsyncRequestQueue) (tEnter tRecord : ℚ) :
    AsyncRequestQueue :=
  let cleaned := cleanOldRequests q.request_times tEnter q.period
  let threshold := pyInt ((q.max_rate : ℚ) * (8 / 10))
  let cleaned2 :=
    if threshold ≤ (cleaned.length : ℤ) then
      if q.max_rate ≤ (cleaned.length : ℤ) then
        cleanOldRequests cleaned tRecord q.period
      else cleaned
    else cleaned
  { q with request_times := cleaned2 ++ [tRecord] }

/-- `AsyncRequestQueue.execute` (identical caching and eviction logic). -/
def AsyncRequestQueue.execute (q : AsyncRequestQueue) (key : String)
    (tEnter tRecord : ℚ) (outcome : Except String String) :
    AsyncRequestQueue × Except String String :=
  match q.cache.lookup key with
  | some v => (q, .ok v)
  | none =>
    let q1 := q.waitIfNeeded tEnter tRecord
    match outcome with
    | .ok result =>
      let cache1 := if 100 < q1.cache.length then q1.cache.drop 1 else q1.cache
      ({ q1 with cache := cache1 ++ [(key, result)] }, .ok result)
    | .error e => (q1, .error e)

/-- `AsyncRequestQueue.get_stats()`. -/
def AsyncRequestQueue.get_stats (q : AsyncRequestQueue) (tNow : ℚ) :
    AsyncRequestQueue × QueueStats :=
  let times := cleanOldRequests q.request_times tNow q.period
  ({ q with request_times := times },
   { requests_in_window := times.length
     max_rate := q.max_rate
     original_max_rate := q.original_max_rate
     cache_size := q.cache.length
     utilization_percent :=
       if 0 < q.max_rate then
         (pyRoundEven ((times.length : ℚ) / (q.max_rate : ℚ) * 100 * 10) : ℚ) / 10
       else 0 })

/-! ### Cache evolution of `execute`

`execute` changes the cache in a way independent of the throttling state:
`cacheStep` is that change (a hit leaves the cache alone; a successful miss
evicts the first-inserted entry when more than 100 entries are present, then
appends).  Factoring it out lets concrete runs be evaluated without reducing
the rational clock arithmetic. -/
def cacheStep (c : List (String × String)) (k v : String) :
    List (String × String) :=
  match c.lookup k with
  | some _ => c
  | none => (if 100 < c.length then c.drop 1 else c) ++ [(k, v)]

theorem execute_cache (q : RequestQueue) (k : String) (t1 t2 : ℚ) (v : String) :
    (q.execute k t1 t2 (.ok v)).1.cache = cacheStep q.cache k v := by
  unfold RequestQueue.execute cacheStep
  cases h : q.cache.lookup k <;>
    simp [h, RequestQueue.waitIfNeeded]

theorem execute_cache_of_error (q : RequestQueue) (k : String) (t1 t2 : ℚ)
    (e : String) : (q.execute k t1 t2 (.error e)).1.cache = q.cache := by
  unfold RequestQueue.execute
  cases h : q.cache.lookup k <;>
    simp [h, RequestQueue.waitIfNeeded]

theorem async_execute_cache (q : AsyncRequestQueue) (k : String) (t1 t2 : ℚ)
    (v : String) :
    (q.execute k t1 t2 (.ok v)).1.cache = cacheStep q.cache k v := by
  unfold AsyncRequestQueue.execute cacheStep
  cases h : q.cache.lookup k <;>
    simp [h, AsyncRequestQueue.waitIfNeeded]

theorem async_execute_cache_of_error (q : AsyncRequestQueue) (k : String)
    (t1 t2 : ℚ) (e : String) :
    (q.execute k t1 t2 (.error e)).1.cache = q.cache := by
  unfold AsyncRequestQueue.execute
  cases h : q.cache.lookup k <;>
    simp [h, AsyncRequestQueue.waitIfNeeded]

theorem cacheStep_length_le (c : List (String × String)) (k v : String)
    (h : c.length ≤ 101) : (cacheStep c k v).length ≤ 101 := by
  unfold cacheStep
  cases hl : c.lookup k
  · by_cases h100 : 100 < c.length <;> simp [h100] <;> omega
  · exact h

/-- One call to `execute`, as data: the cache key derived from the callee and
its arguments, the two wall-clock readings, and the underlying call's
outcome. -/
structure ExecCall where
  key : String
  tEnter : ℚ
  tRecord : ℚ
  outcome : Except String String

/-- A sequence of `execute` calls against one synchronous queue. -/
def runExecs (q : RequestQueue) : List ExecCall → RequestQueue
  | [] => q
  | c :: rest => runExecs (q.execute c.key c.tEnter c.tRecord c.outcome).1 rest

/-- A sequence of `execute` calls against one asynchronous queue. -/
def runExecsAsync (q : AsyncRequestQueue) : List ExecCall → AsyncRequestQueue
  | [] => q
  | c :: rest =>
    runExecsAsync (q.execute c.key c.tEnter c.tRecord c.outcome).1 rest

theorem execute_cache_length_le (q : RequestQueue) (c : ExecCall)
    (h : q.cache.length ≤ 101) :
    (q.execute c.key c.tEnter c.tRecord c.outcome).1.cache.length ≤ 101 := by
  cases hc : c.outcome with
  | ok v => rw [execute_cache]; exact cacheStep_length_le _ _ _ h
  | error e => rw [execute_cache_of_error]; exact h

theorem async_execute_cache_length_le (q : AsyncRequestQueue) (c : ExecCall)
    (h : q.cache.length ≤ 101) :
    (q.execute c.key c.tEnter c.tRecord c.outcome).1.cache.length ≤ 101 := by
  cases hc : c.outcome with
  | ok v => rw [async_execute_cache]; exact cacheStep_length_le _ _ _ h
  | error e => rw [async_execute_cache_of_error]; exact h

/-- Pure replay of `cacheStep` over a list of (key, result) pairs. -/
def cacheRun (c : List (String × String)) :
    List (String × String) → List (String × String)
  | [] => c
  | (k, v) :: rest => cacheRun (cacheStep c k v) rest

theorem runExecs_ok_cache (pairs : List (String × String)) (q : RequestQueue) :
    (runExecs q (pairs.map fun p => ⟨p.1, 0, 0, .ok p.2⟩)).cache =
      cacheRun q.cache pairs := by
  induction pairs generalizing q with
  | nil => rfl
  | cons hd tl ih =>
    obtain ⟨k, v⟩ := hd
    simp only [List.map_cons, runExecs, cacheRun]
    rw [← execute_cache q k 0 0 v]
    exact ih _

/-- 101 pairwise-distinct cache keys with successful results. -/
def distinctPairs (n : ℕ) : List (String × String) :=
  (List.range n).map fun i => ("k" ++ toString i, "v")

set_option maxRecDepth 4000 in
/-- Claim C7, counterexample: starting from a fresh synchronous queue, 101
`execute` calls with pairwise-distinct keys and successful results leave the
response cache holding 101 entries — more than the 100 the claim allows
(eviction only fires once the cache already exceeds 100 entries). -/
theorem c7_cache_bound_counterexample :
    100 <
      (runExecs (RequestQueue.init 50 60 (19 / 20))
        ((distinctPairs 101).map fun p => ⟨p.1, 0, 0, .ok p.2⟩)).cache.length := by
  rw [runExecs_ok_cache]
  show 100 < (cacheRun [] (distinctPairs 101)).length
  decide

/-- Claim C7, amended: for every sequence of `execute` calls on a sync or
async rate-limiting queue starting from a cache of at most 101 entries (a
fresh queue's cache is empty), the response cache never holds more than 101
entries; and on a successful call whose key is uncached, if the cache already
holds more than 100 entries the first-inserted (oldest) entry is evicted
before the new result is appended. -/
theorem c7_cache_bound_and_eviction :
    (∀ (q : RequestQueue) (ops : List ExecCall), q.cache.length ≤ 101 →
      (runExecs q ops).cache.length ≤ 101) ∧
    (∀ (q : RequestQueue) (k : String) (t1 t2 : ℚ) (v : String),
      q.cache.lookup k = none → 100 < q.cache.length →
      (q.execute k t1 t2 (.ok v)).1.cache = q.cache.drop 1 ++ [(k, v)]) ∧
    (∀ (q : AsyncRequestQueue) (ops : List ExecCall), q.cache.length ≤ 101 →
      (runExecsAsync q ops).cache.length ≤ 101) ∧
    (∀ (q : AsyncRequestQueue) (k : String) (t1 t2 : ℚ) (v : String),
      q.cache.lookup k = none → 100 < q.cache.length →
      (q.execute k t1 t2 (.ok v)).1.cache = q.cache.drop 1 ++ [(k, v)]) := by
  refine ⟨?_, ?_, ?_, ?_⟩
  · intro q ops
    induction ops generalizing q with
    | nil => intro h; exact h
    | cons c rest ih =>
      intro h
      exact ih _ (execute_cache_length_le q c h)
  · intro q k t1 t2 v hlk hlen
    rw [execute_cache, cacheStep, hlk]
    simp [hlen]
  · intro q ops
    induction ops generalizing q with
    | nil => intro h; exact h
    | cons c rest ih =>
      intro h
      exact ih _ (async_execute_cache_length_le q c h)
  · intro q k t1 t2 v hlk hlen
    rw [async_execute_cache, cacheStep, hlk]
    simp [hlen]

/-- A synchronous queue whose cache already holds 101 entries. -/
def fullQueue : RequestQueue :=
  { RequestQueue.init 50 60 (19 / 20) with cache := distinctPairs 101 }

/-- Claim C7, witness: the amended bound at a fresh queue, and the eviction
shape at a queue holding 101 cached entries, both at concrete inputs. -/
theorem c7_cache_witness :
    (runExecs (RequestQueue.init 50 60 (19 / 20)) []).cache.length ≤ 101 ∧
    (fullQueue.execute "a" 0 0 (.ok "r")).1.cache =
      fullQueue.cache.drop 1 ++ [("a", "r")] := by
  constructor
  · exact c7_cache_bound_and_eviction.1 (RequestQueue.init 50 60 (19 / 20)) []
      (by decide)
  · exact c7_cache_bound_and_eviction.2.1 fullQueue "a" 0 0 "r" (by decide)
      (by decide)

/-! ### Claim C6 — `get_stats().max_rate` -/

theorem runExecs_max_rate (ops : List ExecCall) (q : RequestQueue) :
    (runExecs q ops).max_rate = q.max_rate := by
  induction ops generalizing q with
  | nil => rfl
  | cons c rest ih =>
    rw [runExecs, ih]
    unfold RequestQueue.execute
    cases h : q.cache.lookup c.key
    · cases c.outcome <;> simp [RequestQueue.waitIfNeeded]
    · simp

theorem runExecs_original_max_rate (ops : List ExecCall) (q : RequestQueue) :
    (runExecs q ops).original_max_rate = q.original_max_rate := by
  induction ops generalizing q with
  | nil => rfl
  | cons c rest ih =>
    rw [runExecs, ih]
    unfold RequestQueue.execute
    cases h : q.cache.lookup c.key
    · cases c.outcome <;> simp [RequestQueue.waitIfNeeded]
    · simp

theorem runExecsAsync_max_rate (ops : List ExecCall) (q : AsyncRequestQueue) :
    (runExecsAsync q ops).max_rate = q.max_rate := by
  induction ops generalizing q with
  | nil => rfl
  | cons c rest ih =>
    rw [runExecsAsync, ih]
    unfold AsyncRequestQueue.execute
    cases h : q.cache.lookup c.key
    · cases c.outcome <;> simp [AsyncRequestQueue.waitIfNeeded]
    · simp

theorem runExecsAsync_original_max_rate (ops : List ExecCall)
    (q : AsyncRequestQueue) :
    (runExecsAsync q ops).original_max_rate = q.original_max_rate := by
  induction ops generalizing q with
  | nil => rfl
  | cons c rest ih =>
    rw [runExecsAsync, ih]
    unfold AsyncRequestQueue.execute
    cases h : q.cache.lookup c.key
    · cases c.outcome <;> simp [AsyncRequestQueue.waitIfNeeded]
    · simp

/-- Claim C6, counterexample: a queue configured with `max_rate = 2` and the
default safety margin 0.95 reports `max_rate = int(2 * 0.95) = 1` from
`get_stats()`, not `2 × 0.95 = 1.9` as the claim states (the product is
truncated to an integer by `int(...)` at construction); the async variant
reports the same value. -/
theorem c6_max_rate_counterexample :
    ((RequestQueue.init 2 60 (19 / 20)).get_stats 0).2.max_rate = 1 ∧
    ((AsyncRequestQueue.init 2 60 (19 / 20)).get_stats 0).2.max_rate = 1 ∧
    ¬ ((1 : ℚ) = 2 * (19 / 20 : ℚ)) := by
  have hq : (2 : ℚ) * (19 / 20) = 19 / 10 := by norm_num
  have hnum : ((19 : ℚ) / 10).num = 19 := by norm_num
  have hden : ((19 : ℚ) / 10).den = 10 := by norm_num
  refine ⟨?_, ?_, by norm_num⟩
  · show pyInt (2 * (19 / 20 : ℚ)) = 1
    rw [hq]; unfold pyInt; rw [hnum, hden]; decide
  · show pyInt (2 * (19 / 20 : ℚ)) = 1
    rw [hq]; unfold pyInt; rw [hnum, hden]; decide

/-- Claim C6, amended: for every sync or async rate-limiting queue
constructed with maximum rate `m` and safety margin `s`, and after any
sequence of `execute` calls, `get_stats()` reports `max_rate` equal to
`int(m * s)` — the product truncated toward zero to an integer (so a queue
configured with `max_rate = 2` reports 1, and the default 50 reports 47) —
and `original_max_rate` equal to the configured `m`. -/
theorem c6_get_stats_max_rate (m p s t : ℚ) (ops : List ExecCall) :
    ((runExecs (RequestQueue.init m p s) ops).get_stats t).2.max_rate =
      pyInt (m * s) ∧
    ((runExecs (RequestQueue.init m p s) ops).get_stats t).2.original_max_rate
      = m ∧
    ((runExecsAsync (AsyncRequestQueue.init m p s) ops).get_stats t).2.max_rate
      = pyInt (m * s) ∧
    ((runExecsAsync (AsyncRequestQueue.init m p s) ops).get_stats
      t).2.original_max_rate = m := by
  refine ⟨?_, ?_, ?_, ?_⟩
  · exact runExecs_max_rate ops _
  · exact runExecs_original_max_rate ops _
  · exact runExecsAsync_max_rate ops _
  · exact runExecsAsync_original_max_rate ops _

/-! ## `src/context/context_manager.py` — the Context Store

The SQLite tables become insertion-ordered association lists keyed by their
primary key; `INSERT OR REPLACE` becomes `dictSet`, `UPDATE` rewrites the
row in place.  JSON `TEXT` columns are modeled at the value level: on these
value shapes (lists of strings, string-to-string mappings)
`json.loads(json.dumps(x)) == x` and `json.dumps` never yields SQL `NULL`,
so serialization is the identity injection into an `Option`-typed column
(`none` = `NULL`).  `datetime` values are carried by their ISO text
(`datetime.fromisoformat(d.isoformat()) == d`). -/

/-- A `datetime.datetime`, identified by its `isoformat()` text. -/
structure PyDateTime where
  iso : String
  deriving DecidableEq, Repr

/-- The `RequirementsDocument` dataclass from `src/context/shared_context.py`
(fields as read and written by the Context Store). -/
structure RequirementsDocument where
  user_idea : String
  project_overview : String
  core_features : List String
  technical_requirements : List (String × String)
  user_personas : List String
  business_objectives : List String
  constraints : List String
  assumptions : List String
  generated_at : PyDateTime
  deriving DecidableEq, Repr

/-- One row of the `requirements` table.  The nullable columns are
`Option`-typed; `user_idea` and `generated_at` are `NOT NULL`. -/
structure RequirementsRow where
  user_idea : String
  project_overview : Option String
  core_features : Option (List String)
  technical_requirements : Option (List (String × String))
  user_personas : Option (List String)
  business_objectives : Option (List String)
  constraints : Option (List String)
  assumptions : Option (List String)
  generated_at : String
  deriving DecidableEq, Repr

/-- The `requirements` table: one row per `project_id`. -/
abbrev RequirementsTable := List (String × RequirementsRow)

/-- `ContextManager.save_requirements(project_id, requirements)`:
`INSERT OR REPLACE` of the serialized document. -/
def save_requirements (tbl : RequirementsTable) (project_id : String)
    (requirements : RequirementsDocument) : RequirementsTable :=
  dictSet tbl project_id
    { user_idea := requirements.user_idea
      project_overview := some requirements.project_overview
      core_features := some requirements.core_features
      technical_requirements := some requirements.technical_requirements
      user_personas := some requirements.user_personas
      business_objectives := some requirements.business_objectives
      constraints := some requirements.constraints
      assumptions := some requirements.assumptions
      generated_at := requirements.generated_at.iso }

/-- `ContextManager.get_requirements(project_id)`: `None` when no row exists,
otherwise the deserialized document with `row[col] or default` semantics —
a `NULL` JSON column deserializes to an empty collection, a `NULL` overview
to the empty string (on non-`NULL` text `or` is the identity here: an empty
stored string yields the empty string either way). -/
def get_requirements (tbl : RequirementsTable) (project_id : String) :
    Option RequirementsDocument :=
  (tbl.lookup project_id).map fun row =>
    { user_idea := row.user_idea
      project_overview := row.project_overview.getD ""
      core_features := row.core_features.getD []
      technical_requirements := row.technical_requirements.getD []
      user_personas := row.user_personas.getD []
      business_objectives := row.business_objectives.getD []
      constraints := row.constraints.getD []
      assumptions := row.assumptions.getD []
      generated_at := ⟨row.generated_at⟩ }

/-- Error classes raised by the embedded code: `ValueError` on invalid input
and `TypeError` on a bad call signature. -/
inductive PyErr
  | invalidInput (msg : String)
  | typeError (msg : String)
  deriving DecidableEq, Repr

/-- One row of the `project_status` table.  `results` is a JSON object
column whose value the store never inspects, modeled as a string-keyed
mapping. -/
structure ProjectStatusRow where
  status : String
  user_idea : String
  profile : Option String
  provider_name : Option String
  started_at : String
  completed_at : Option String
  failed_at : Option String
  error : Option String
  completed_agents : List String
  results : List (String × String)
  deriving DecidableEq, Repr

/-- The `project_status` table: one row per `project_id`. -/
abbrev StatusTable := List (String × ProjectStatusRow)

/-- Python `x or default` on an optional string: `None` and the empty string
are both falsy. -/
def pyOrStr (x : Option String) (default : String) : String :=
  match x with
  | none => default
  | some s => if s = "" then default else s

/-- The row produced by the `UPDATE` branch of `update_project_status`: the
staged `update_fields` list of the source as successive record updates. -/
def mergedStatusRow (existing : ProjectStatusRow) (now status : String)
    (completed_agents : Option (List String))
    (results : Option (List (String × String))) (error : Option String) :
    ProjectStatusRow :=
  let r1 := { existing with status := status }
  let r2 := match completed_agents with
    | some ca => { r1 with completed_agents := ca }
    | none => r1
  let r3 := match results with
    | some rs => { r2 with results := rs }
    | none => r2
  match error with
  | some e => { r3 with error := some e, failed_at := some now }
  | none =>
    if status = "complete" then { r3 with completed_at := some now } else r3

/-- `ContextManager.update_project_status(project_id, status, user_idea,
profile, provider_name, completed_agents, results, error)` at wall-clock
reading `now` (`datetime.now().isoformat()`).

If a row exists, `status` is always overwritten, `completed_agents` and
`results` only when supplied; a non-`None` `error` sets `error` and stamps
`failed_at = now`, otherwise a `status` of `"complete"` stamps
`completed_at = now` (the `elif` in the source makes the error stamp
suppress the completion stamp).  `user_idea`, `profile`, `provider_name`
and `started_at` are left untouched.  (The source also touches
`projects.updated_at`; the `projects` table is not involved in any claim and
is not modeled.)

If no row exists, a falsy `user_idea` (`None` or empty) raises `ValueError`
before anything is written; otherwise a fresh row is inserted with
`started_at = now`, `provider_name or "default"`, `completed_agents or []`,
`results or {}` and the given `error`. -/
def update_project_status (tbl : StatusTable) (now : String)
    (project_id status : String) (user_idea profile provider_name : Option String)
    (completed_agents : Option (List String))
    (results : Option (List (String × String))) (error : Option String) :
    Except PyErr StatusTable :=
  match tbl.lookup project_id with
  | some existing =>
    .ok (dictSet tbl project_id
      (mergedStatusRow existing now status completed_agents results error))
  | none =>
    match user_idea with
    | none => .error (.invalidInput
        "user_idea is required when creating new project status")
    | some uid =>
      if uid = "" then
        .error (.invalidInput
          "user_idea is required when creating new project status")
      else
        .ok (dictSet tbl project_id
          { status := status
            user_idea := uid
            profile := profile
            provider_name := some (pyOrStr provider_name "default")
            started_at := now
            completed_at := none
            failed_at := none
            error := error
            completed_agents := completed_agents.getD []
            results := results.getD [] })

/-- `ContextManager.get_project_status(project_id)`: the row as a dictionary,
or `None`. -/
def get_project_status (tbl : StatusTable) (project_id : String) :
    Option ProjectStatusRow :=
  tbl.lookup project_id

/-! ### Claim C5 — requirements round-trip -/

/-- Claim C5: saving a `RequirementsDocument` for a project and re-fetching
it returns a document equal to it field by field (for any prior table
contents); and a stored row whose optional JSON columns are all `NULL`
re-fetches as a document with empty-collection defaults (empty lists, empty
mapping, empty overview) rather than failing. -/
theorem c5_requirements_round_trip :
    (∀ (tbl : RequirementsTable) (p : String) (r : RequirementsDocument),
      get_requirements (save_requirements tbl p r) p = some r) ∧
    (∀ (tbl : RequirementsTable) (p : String) (row : RequirementsRow),
      tbl.lookup p = some row →
      row.project_overview = none → row.core_features = none →
      row.technical_requirements = none → row.user_personas = none →
      row.business_objectives = none → row.constraints = none →
      row.assumptions = none →
      get_requirements tbl p = some
        { user_idea := row.user_idea
          project_overview := ""
          core_features := []
          technical_requirements := []
          user_personas := []
          business_objectives := []
          constraints := []
          assumptions := []
          generated_at := ⟨row.generated_at⟩ }) := by
  constructor
  · intro tbl p r
    unfold get_requirements save_requirements
    rw [lookup_dictSet]
    simp
  · intro tbl p row hrow h1 h2 h3 h4 h5 h6 h7
    unfold get_requirements
    rw [hrow]
    simp [h1, h2, h3, h4, h5, h6, h7]

/-- A stored requirements row with every optional column `NULL`. -/
def nullRequirementsRow : RequirementsRow :=
  { user_idea := "Build a blog"
    project_overview := none
    core_features := none
    technical_requirements := none
    user_personas := none
    business_objectives := none
    constraints := none
    assumptions := none
    generated_at := "2025-01-01T00:00:00" }

/-- A sample requirements document. -/
def sampleRequirements : RequirementsDocument :=
  { user_idea := "Build a blog"
    project_overview := "A blogging platform"
    core_features := ["Posts", "Comments"]
    technical_requirements := [("backend", "Python")]
    user_personas := []
    business_objectives := ["Engagement"]
    constraints := []
    assumptions := []
    generated_at := ⟨"2025-01-01T00:00:00"⟩ }

/-- Claim C5, witness: the round trip and the `NULL`-column defaults at
concrete inputs. -/
theorem c5_requirements_witness :
    get_requirements (save_requirements [] "p1" sampleRequirements) "p1" =
      some sampleRequirements ∧
    get_requirements [("p2", nullRequirementsRow)] "p2" = some
      { user_idea := "Build a blog"
        project_overview := ""
        core_features := []
        technical_requirements := []
        user_personas := []
        business_objectives := []
        constraints := []
        assumptions := []
        generated_at := ⟨"2025-01-01T00:00:00"⟩ } := by
  constructor
  · exact c5_requirements_round_trip.1 [] "p1" sampleRequirements
  · exact c5_requirements_round_trip.2 [("p2", nullRequirementsRow)] "p2"
      nullRequirementsRow (by decide) rfl rfl rfl rfl rfl rfl rfl

/-! ### Claim C3 — `update_project_status` merge semantics -/

/-- An existing in-progress status row with no timestamps stamped yet. -/
def inProgressRow : ProjectStatusRow :=
  { status := "in_progress"
    user_idea := "Test project idea"
    profile := some "team"
    provider_name := some "default"
    started_at := "2025-01-01T10:00:00"
    completed_at := none
    failed_at := none
    error := none
    completed_agents := []
    results := [] }

/-- Claim C3, counterexample: on an existing row, a call with
`status="complete"` and a non-null `error` stamps the failure timestamp but
does **not** stamp the completion timestamp (the source's `elif` gives the
error stamp precedence), contradicting the claim that a status of
`"complete"` always stamps a completion timestamp. -/
theorem c3_update_status_counterexample :
    update_project_status [("p1", inProgressRow)] "2025-01-01T11:00:00"
        "p1" "complete" none none none none none (some "boom") =
      .ok [("p1",
        { inProgressRow with
            status := "complete"
            error := some "boom"
            failed_at := some "2025-01-01T11:00:00" })] ∧
    ({ inProgressRow with
        status := "complete"
        error := some "boom"
        failed_at := some "2025-01-01T11:00:00" } :
      ProjectStatusRow).completed_at = none :=
  ⟨rfl, rfl⟩

/-- Field-by-field description of the `UPDATE` branch's merged row. -/
theorem mergedStatusRow_fields (existing : ProjectStatusRow) (now status : String)
    (ca : Option (List String)) (rs : Option (List (String × String)))
    (err : Option String) :
    (mergedStatusRow existing now status ca rs err).status = status ∧
    (mergedStatusRow existing now status ca rs err).user_idea =
      existing.user_idea ∧
    (mergedStatusRow existing now status ca rs err).profile =
      existing.profile ∧
    (mergedStatusRow existing now status ca rs err).provider_name =
      existing.provider_name ∧
    (mergedStatusRow existing now status ca rs err).started_at =
      existing.started_at ∧
    (mergedStatusRow existing now status ca rs err).completed_agents =
      ca.getD existing.completed_agents ∧
    (mergedStatusRow existing now status ca rs err).results =
      rs.getD existing.results ∧
    (∀ e, err = some e →
      (mergedStatusRow existing now status ca rs err).error = some e ∧
      (mergedStatusRow existing now status ca rs err).failed_at = some now ∧
      (mergedStatusRow existing now status ca rs err).completed_at =
        existing.completed_at) ∧
    (err = none →
      (mergedStatusRow existing now status ca rs err).error = existing.error ∧
      (mergedStatusRow existing now status ca rs err).failed_at =
        existing.failed_at ∧
      (status = "complete" →
        (mergedStatusRow existing now status ca rs err).completed_at =
          some now) ∧
      (status ≠ "complete" →
        (mergedStatusRow existing now status ca rs err).completed_at =
          existing.completed_at)) := by
  unfold mergedStatusRow
  rcases ca with _ | ca <;> rcases rs with _ | rs <;> rcases err with _ | e <;>
    by_cases hst : status = "complete" <;> simp_all

/-- Claim C3, amended: for every call to the Context Store's
`update_project_status`: if no status row exists for the project and the
user idea is not supplied (or is empty), the call fails with an InvalidInput
(`ValueError`) error and no row is created; if a row already exists, only
the supplied fields among status/completed-agents/results/error are
overwritten (user idea, profile, provider name and start time are preserved,
as are all other projects' rows), a non-null error stamps a failure
timestamp, and a status of `"complete"` stamps a completion timestamp only
when no error is supplied in the same call — the error stamp takes
precedence over the completion stamp. -/
theorem c3_update_status_merge (tbl : StatusTable) (now project_id status : String)
    (user_idea profile provider_name : Option String)
    (completed_agents : Option (List String))
    (results : Option (List (String × String))) (error : Option String) :
    (tbl.lookup project_id = none → (user_idea = none ∨ user_idea = some "") →
      update_project_status tbl now project_id status user_idea profile
          provider_name completed_agents results error =
        .error (.invalidInput
          "user_idea is required when creating new project status")) ∧
    (∀ existing, tbl.lookup project_id = some existing →
      ∃ tbl' r,
        update_project_status tbl now project_id status user_idea profile
            provider_name completed_agents results error = .ok tbl' ∧
        tbl'.lookup project_id = some r ∧
        (∀ k, k ≠ project_id → tbl'.lookup k = tbl.lookup k) ∧
        r.status = status ∧
        r.user_idea = existing.user_idea ∧
        r.profile = existing.profile ∧
        r.provider_name = existing.provider_name ∧
        r.started_at = existing.started_at ∧
        r.completed_agents = completed_agents.getD existing.completed_agents ∧
        r.results = results.getD existing.results ∧
        (∀ e, error = some e →
          r.error = some e ∧ r.failed_at = some now ∧
          r.completed_at = existing.completed_at) ∧
        (error = none →
          r.error = existing.error ∧ r.failed_at = existing.failed_at ∧
          (status = "complete" → r.completed_at = some now) ∧
          (status ≠ "complete" → r.completed_at = existing.completed_at))) := by
  constructor
  · intro hnone hfalsy
    unfold update_project_status
    rw [hnone]
    rcases hfalsy with h | h <;> simp [h]
  · intro existing hsome
    obtain ⟨f1, f2, f3, f4, f5, f6, f7, f8, f9⟩ :=
      mergedStatusRow_fields existing now status completed_agents results error
    refine ⟨dictSet tbl project_id
        (mergedStatusRow existing now status completed_agents results error),
      mergedStatusRow existing now status completed_agents results error,
      ?_, ?_, ?_, f1, f2, f3, f4, f5, f6, f7, f8, f9⟩
    · unfold update_project_status
      rw [hsome]
    · rw [lookup_dictSet]; simp
    · intro k hk; rw [lookup_dictSet]; simp [hk]

/-- Claim C3, witness: the creation-failure branch and the merge branch of
the amended statement, at concrete inputs. -/
theorem c3_update_status_witness :
    update_project_status [] "T1" "p9" "in_progress" none none none none none
        none =
      .error (.invalidInput
        "user_idea is required when creating new project status") ∧
    (∃ tbl' r,
      update_project_status [("p1", inProgressRow)] "T1" "p1" "complete" none
          none none none none none = .ok tbl' ∧
      tbl'.lookup "p1" = some r ∧
      (∀ k, k ≠ "p1" → tbl'.lookup k = List.lookup k [("p1", inProgressRow)]) ∧
      r.status = "complete" ∧
      r.user_idea = inProgressRow.user_idea ∧
      r.profile = inProgressRow.profile ∧
      r.provider_name = inProgressRow.provider_name ∧
      r.started_at = inProgressRow.started_at ∧
      r.completed_agents = inProgressRow.completed_agents ∧
      r.results = inProgressRow.results ∧
      r.error = inProgressRow.error ∧ r.failed_at = inProgressRow.failed_at ∧
      r.completed_at = some "T1") := by
  constructor
  · exact (c3_update_status_merge [] "T1" "p9" "in_progress" none none none
      none none none).1 rfl (Or.inl rfl)
  · obtain ⟨tbl', r, h1, h2, h3, h4, h5, h6, h7, h8, h9, h10, _, hnone⟩ :=
      (c3_update_status_merge [("p1", inProgressRow)] "T1" "p1" "complete"
        none none none none none none).2 inProgressRow (by decide)
    obtain ⟨he, hf, hc, _⟩ := hnone rfl
    exact ⟨tbl', r, h1, h2, h3, h4, h5, h6, h7, h8, h9, h10, he, hf, hc rfl⟩

/-! ## `src/tasks/generation_tasks.py` — the distributed generation task

The Celery task decorator's configuration constants, the retry/backoff
decision of the `except` block, and the task's initial project-status write
(which passes a keyword argument `update_project_status` does not accept). -/

/-- `soft_time_limit=3600` from the `@celery_app.task(...)` decorator. -/
def task_soft_time_limit : ℕ := 3600

/-- `time_limit=3700` from the decorator (3600 s + 100 s). -/
def task_time_limit : ℕ := 3700

/-- `max_retries=3` from the decorator. -/
def task_max_retries : ℕ := 3

/-- `default_retry_delay=60` from the decorator. -/
def task_default_retry_delay : ℕ := 60

/-- What the task's `except` block decides for a failed attempt. -/
inductive TaskFailureAction
  | retryAfter (countdown : ℕ)
  | failPermanently
  deriving DecidableEq, Repr

/-- `isinstance(exc, (ConnectionError, TimeoutError, OSError))`, with the
exception identified by the name of its (base) class. -/
def retryable_exception (excName : String) : Bool :=
  excName = "ConnectionError" ∨ excName = "TimeoutError" ∨ excName = "OSError"

/-- Lines 286–315 of `generate_documents_task`'s failure handler:
`retries_left = self.max_retries - self.request.retries`; a retryable
exception with retries left is rescheduled with countdown
`60 * (2 ** self.request.retries)`, anything else marks the project failed
and re-raises. -/
def handle_task_failure (excName : String) (retries : ℕ) : TaskFailureAction :=
  if retryable_exception excName ∧ 0 < task_max_retries - retries then
    .retryAfter (60 * 2 ^ retries)
  else .failPermanently

/-- The keyword parameters `ContextManager.update_project_status` accepts
(besides `self`), in order. -/
def update_project_status_params : List String :=
  ["project_id", "status", "user_idea", "profile", "provider_name",
   "completed_agents", "results", "error"]

/-- The keyword arguments `generate_documents_task` passes to the initial
`in_progress` status write (lines 166–172). -/
def task_initial_status_kwargs : List String :=
  ["project_id", "status", "user_idea", "provider_name", "selected_documents"]

/-- Python call-time keyword binding: a keyword argument that is not a
parameter of the callee raises `TypeError` before the callee's body runs. -/
def bindKwargs (params kwargs : List String) : Except PyErr Unit :=
  match kwargs.find? (fun k => ¬ params.contains k) with
  | some k => .error (.typeError
      ("update_project_status() got an unexpected keyword argument " ++ k))
  | none => .ok ()

/-- The initial project-status write the background task performs after
publishing the "started" notification and before building the coordinator:
the call as written in the source, i.e. keyword binding against
`update_project_status`'s signature followed (on success) by the call
itself with `status="in_progress"`. -/
def task_write_initial_status (tbl : StatusTable) (now project_id user_idea : String)
    (provider_name : Option String) : Except PyErr StatusTable :=
  match bindKwargs update_project_status_params task_initial_status_kwargs with
  | .error e => .error e
  | .ok _ =>
    update_project_status tbl now project_id "in_progress" (some user_idea)
      none provider_name none none none

/-! ### Claim C4 — the initial `in_progress` write -/

/-- Claim C4: the background task's initial `in_progress` status write can
never succeed — the call passes the keyword argument `selected_documents`,
which `ContextManager.update_project_status` does not accept, so Python
raises `TypeError` at the call site before any row is written, for every
table state and every input. -/
theorem c4_initial_status_write_raises (tbl : StatusTable)
    (now project_id user_idea : String) (provider_name : Option String) :
    task_write_initial_status tbl now project_id user_idea provider_name =
      .error (.typeError
        ("update_project_status() got an unexpected keyword argument "
          ++ "selected_documents")) := by
  rfl

/-! ### Claim C8 — task time limits, retry budget and backoff -/

/-- Claim C8, counterexample: the task's hard execution ceiling is
`time_limit=3700` seconds (1 hour plus 100 seconds), not the 1 hour
10 minutes (4200 seconds) the claim states. -/
theorem c8_time_limit_counterexample :
    task_time_limit = 3700 ∧ task_time_limit ≠ 4200 := by
  decide

/-- Claim C8, amended: the distributed document-generation task is configured
with a 1-hour (3600 s) soft execution ceiling and a 3700-second (1 hour +
100 s) hard execution ceiling, a retry budget of 3 retries, and, for
retryable (connectivity/timeout-class) errors with retries remaining,
schedules each retry with exponential backoff of 60 × 2^attempt seconds
(60 s, 120 s, 240 s); a non-retryable error, or a retryable one with the
budget exhausted, fails permanently. -/
theorem c8_task_limits_and_backoff :
    task_soft_time_limit = 3600 ∧
    task_time_limit = 3700 ∧
    task_max_retries = 3 ∧
    task_default_retry_delay = 60 ∧
    (∀ excName retries, retryable_exception excName → retries < task_max_retries →
      handle_task_failure excName retries = .retryAfter (60 * 2 ^ retries)) ∧
    handle_task_failure "ConnectionError" 0 = .retryAfter 60 ∧
    handle_task_failure "TimeoutError" 1 = .retryAfter 120 ∧
    handle_task_failure "OSError" 2 = .retryAfter 240 ∧
    (∀ excName retries, task_max_retries ≤ retries →
      handle_task_failure excName retries = .failPermanently) ∧
    (∀ retries, ¬ retryable_exception "ValueError" →
      handle_task_failure "ValueError" retries = .failPermanently) := by
  refine ⟨rfl, rfl, rfl, rfl, ?_, by decide, by decide, by decide, ?_, ?_⟩
  · intro excName retries hre hlt
    unfold handle_task_failure
    rw [if_pos ⟨hre, by unfold task_max_retries at hlt ⊢; omega⟩]
  · intro excName retries hge
    unfold handle_task_failure
    rw [if_neg]
    rintro ⟨-, hpos⟩
    unfold task_max_retries at hge hpos
    omega
  · intro retries hnr
    unfold handle_task_failure
    rw [if_neg]
    rintro ⟨hre, -⟩
    exact hnr hre

/-- Claim C8, witness: the amended backoff and exhaustion facts at concrete
attempts. -/
theorem c8_task_limits_witness :
    handle_task_failure "ConnectionError" 2 = .retryAfter 240 ∧
    handle_task_failure "ConnectionError" 3 = .failPermanently ∧
    handle_task_failure "ValueError" 0 = .failPermanently := by
  refine ⟨?_, ?_, ?_⟩
  · exact c8_task_limits_and_backoff.2.2.2.2.1 "ConnectionError" 2 (by decide)
      (by decide)
  · exact (c8_task_limits_and_backoff.2.2.2.2.2.2.2.2.1) "ConnectionError" 3
      (by decide)
  · exact (c8_task_limits_and_backoff.2.2.2.2.2.2.2.2.2) 0 (by decide)

/-! ## `src/web/websocket_manager.py` and `src/web/routers/websocket.py`

The WebSocket Manager's per-project registry (`Dict[str, Set[WebSocket]]`,
sockets identified by numbers) and the handshake part of the
`/ws/{project_id}` endpoint: validation, connection limit, registration and
the `connected` confirmation frame.  The receive/heartbeat loop that follows
a successful handshake is outside this model. -/

/-- Python `s.startswith(p)`, computed on the character list (Lean's
byte-based `String.startsWith` has the same value but does not reduce in the
kernel). -/
def strStartsWith (s p : String) : Bool :=
  p.data.isPrefixOf s.data

/-- Python `set.add` on a duplicate-free list. -/
def setAdd (s : List ℕ) (x : ℕ) : List ℕ :=
  if x ∈ s then s else s ++ [x]

/-- `WebSocketManager.active_connections`. -/
structure WebSocketManager where
  active_connections : List (String × List ℕ)
  deriving DecidableEq, Repr

/-- `active_connections.get(project_id, set())`. -/
def WebSocketManager.conns (m : WebSocketManager) (project_id : String) :
    List ℕ :=
  (m.active_connections.lookup project_id).getD []

/-- `WebSocketManager.connect`: accept the socket and add it to the
project's set (`setdefault(project_id, set()).add(websocket)`). -/
def WebSocketManager.connect (m : WebSocketManager) (ws : ℕ)
    (project_id : String) : WebSocketManager :=
  { active_connections :=
      dictSet m.active_connections project_id (setAdd (m.conns project_id) ws) }

/-- How the handshake of `websocket_endpoint` ends: closed with a code and
reason before registration, or accepted with the type of the confirmation
frame sent. -/
inductive WsHandshake
  | closed (code : ℕ) (reason : String)
  | accepted (sentFrameType : String)
  deriving DecidableEq, Repr

/-- The handshake part of `websocket_endpoint(websocket, project_id)`
(lines 44–68): reject a falsy id, an id that does not start with
`"project_"` or one longer than 255 characters with close code 1008; reject
when the project already has 10 or more registered connections with close
code 1008; otherwise register through the manager and send a `connected`
frame. -/
def websocket_endpoint (m : WebSocketManager) (ws : ℕ) (project_id : String) :
    WebSocketManager × WsHandshake :=
  if project_id = "" ∨ strStartsWith project_id "project_" = false ∨
      255 < project_id.length then
    (m, .closed 1008 "Invalid project ID format")
  else if 10 ≤ (m.conns project_id).length then
    (m, .closed 1008 "Too many concurrent connections for this project")
  else
    (m.connect ws project_id, .accepted "connected")

theorem setAdd_mem (s : List ℕ) (x : ℕ) : x ∈ setAdd s x := by
  unfold setAdd
  by_cases h : x ∈ s
  · rwa [if_pos h]
  · rw [if_neg h]
    exact List.mem_append_right _ (List.mem_singleton.mpr rfl)

/-! ### Claim C9 — handshake validation, limit and registration -/

/-- Claim C9: for every WebSocket connection attempt to `/ws/{project_id}`:
an id that does not start with `"project_"` or exceeds 255 characters is
closed with code 1008 with the manager unchanged (nothing registered); with
10 connections already registered for the project the attempt (the 11th
concurrent connection) is closed with code 1008 with the manager unchanged;
otherwise the connection is registered with the WebSocket Manager for that
project and a frame of type `"connected"` is sent. -/
theorem c9_websocket_handshake (m : WebSocketManager) (ws : ℕ)
    (project_id : String) :
    (strStartsWith project_id "project_" = false ∨ 255 < project_id.length →
      websocket_endpoint m ws project_id =
        (m, .closed 1008 "Invalid project ID format")) ∧
    (strStartsWith project_id "project_" = true → project_id.length ≤ 255 →
      (m.conns project_id).length = 10 →
      websocket_endpoint m ws project_id =
        (m, .closed 1008 "Too many concurrent connections for this project")) ∧
    (strStartsWith project_id "project_" = true → project_id.length ≤ 255 →
      (m.conns project_id).length < 10 →
      ws ∈ (websocket_endpoint m ws project_id).1.conns project_id ∧
      (websocket_endpoint m ws project_id).2 = .accepted "connected") := by
  have hvalid : strStartsWith project_id "project_" = true →
      project_id.length ≤ 255 →
      ¬ (project_id = "" ∨ strStartsWith project_id "project_" = false ∨
        255 < project_id.length) := by
    intro hpre hlen
    rintro (h | h | h)
    · rw [h] at hpre
      exact absurd hpre (by decide)
    · rw [hpre] at h
      exact Bool.noConfusion h
    · omega
  refine ⟨?_, ?_, ?_⟩
  · intro h
    unfold websocket_endpoint
    rcases h with h | h
    · rw [if_pos (Or.inr (Or.inl h))]
    · rw [if_pos (Or.inr (Or.inr h))]
  · intro hpre hlen hten
    unfold websocket_endpoint
    rw [if_neg (hvalid hpre hlen), if_pos (by omega)]
  · intro hpre hlen hlt
    constructor
    · unfold websocket_endpoint
      rw [if_neg (hvalid hpre hlen), if_neg (by omega)]
      show ws ∈ (m.connect ws project_id).conns project_id
      unfold WebSocketManager.connect WebSocketManager.conns
      simp only [lookup_dictSet, if_pos rfl, Option.getD_some]
      exact setAdd_mem _ _
    · unfold websocket_endpoint
      rw [if_neg (hvalid hpre hlen), if_neg (by omega)]

/-- Claim C9, witness: the three handshake outcomes at concrete inputs — an
invalid id, an 11th connection to a full project, and a successful
registration. -/
theorem c9_websocket_witness :
    websocket_endpoint ⟨[]⟩ 1 "not-a-project-id" =
      (⟨[]⟩, .closed 1008 "Invalid project ID format") ∧
    websocket_endpoint ⟨[("project_a", [0, 1, 2, 3, 4, 5, 6, 7, 8, 9])]⟩ 10
        "project_a" =
      (⟨[("project_a", [0, 1, 2, 3, 4, 5, 6, 7, 8, 9])]⟩,
        .closed 1008 "Too many concurrent connections for this project") ∧
    7 ∈ (websocket_endpoint ⟨[]⟩ 7 "project_a").1.conns "project_a" ∧
    (websocket_endpoint ⟨[]⟩ 7 "project_a").2 = .accepted "connected" := by
  refine ⟨?_, ?_, ?_, ?_⟩
  · exact (c9_websocket_handshake ⟨[]⟩ 1 "not-a-project-id").1
      (Or.inl (by decide))
  · exact (c9_websocket_handshake
      ⟨[("project_a", [0, 1, 2, 3, 4, 5, 6, 7, 8, 9])]⟩ 10 "project_a").2.1
      (by decide) (by decide) (by decide)
  · exact ((c9_websocket_handshake ⟨[]⟩ 7 "project_a").2.2 (by decide)
      (by decide) (by decide)).1
  · exact ((c9_websocket_handshake ⟨[]⟩ 7 "project_a").2.2 (by decide)
      (by decide) (by decide)).2

/-! ## `src/utils/redis_client.py` — `RedisRateLimiter`

Per-period request counting.  A wall-clock instant is a `PyDate` (year,
month, day, hour — minutes and seconds never enter the key formats used).
`request_counts` maps `strftime` bucket keys to their `"count"` field (the
`"first_request"` timestamp stored beside it is never read and is not
modeled). -/

structure PyDate where
  year : ℕ
  month : ℕ
  day : ℕ
  hour : ℕ
  deriving DecidableEq, Repr

/-- Two-digit zero padding, as `%m`/`%d`/`%H` render. -/
def pad2 (n : ℕ) : String :=
  if n < 10 then "0" ++ toString n else toString n

/-- `now.strftime("%Y-%m-%d-%H")` (years rendered as their digits; all dates
in use have four-digit years). -/
def hourBucketKey (d : PyDate) : String :=
  toString d.year ++ "-" ++ pad2 d.month ++ "-" ++ pad2 d.day ++ "-" ++
    pad2 d.hour

/-- `now.strftime("%Y-%m-%d")`. -/
def dayBucketKey (d : PyDate) : String :=
  toString d.year ++ "-" ++ pad2 d.month ++ "-" ++ pad2 d.day

/-- `now.strftime("%Y-%m")`. -/
def monthBucketKey (d : PyDate) : String :=
  toString d.year ++ "-" ++ pad2 d.month

/-- Python `s.split("-")[0]`: the text before the first `"-"`. -/
def splitHead (s : String) : String :=
  ⟨s.data.takeWhile (fun c => c ≠ '-')⟩

structure RedisRateLimiter where
  max_requests_per_hour : ℕ
  max_requests_per_day : ℕ
  max_requests_per_month : ℕ
  warning_threshold : ℚ
  request_counts : List (String × ℕ)
  monthly_reset_date : PyDate
  deriving DecidableEq, Repr

/-- `RedisRateLimiter.__init__` (defaults 1000 / 10000 / 100000 / 0.8) at
construction instant `now`; `monthly_reset_date = now.replace(day=1,
hour=0, ...)`. -/
def RedisRateLimiter.init (maxHour maxDay maxMonth : ℕ) (now : PyDate) :
    RedisRateLimiter :=
  { max_requests_per_hour := maxHour
    max_requests_per_day := maxDay
    max_requests_per_month := maxMonth
    warning_threshold := 4 / 5
    request_counts := []
    monthly_reset_date := { now with day := 1, hour := 0 } }

/-- `_get_period_keys`: the three bucket keys for `now`, resetting (dropping
every bucket whose key does not start with the current month key) when the
wall-clock month rolled over since `monthly_reset_date`. -/
def getPeriodKeys (st : RedisRateLimiter) (now : PyDate) :
    RedisRateLimiter × String × String × String :=
  let st' :=
    if now.month ≠ st.monthly_reset_date.month ∨
        now.year ≠ st.monthly_reset_date.year then
      { st with
          monthly_reset_date := { year := now.year, month := now.month,
                                  day := 1, hour := 0 }
          request_counts := st.request_counts.filter
            (fun kv => strStartsWith kv.1 (monthBucketKey now)) }
    else st
  (st', hourBucketKey now, dayBucketKey now, monthBucketKey now)

/-- One `counts[key]["count"] += 1`, creating the bucket at 0 first when
absent. -/
def bumpBucket (l : List (String × ℕ)) (k : String) : List (String × ℕ) :=
  match l.lookup k with
  | some n => dictSet l k (n + 1)
  | none => l ++ [(k, 1)]

/-- `RedisRateLimiter.record_request()` at instant `now`: bump the hour, day
and month buckets (in the iteration order of the keys dictionary). -/
def record_request (st : RedisRateLimiter) (now : PyDate) : RedisRateLimiter :=
  match getPeriodKeys st now with
  | (st1, hk, dk, mk) =>
    { st1 with request_counts :=
        bumpBucket (bumpBucket (bumpBucket st1.request_counts hk) dk) mk }

/-- `sum(v.get("count", 0) for k, v in counts.items() if k.startswith(p))`. -/
def sumBucketsWith (l : List (String × ℕ)) (p : String) : ℕ :=
  ((l.filter (fun kv => strStartsWith kv.1 p)).map Prod.snd).sum

/-- `RedisRateLimiter.can_make_request()`: the hour and day counts are the
direct buckets, the month count sums every bucket whose key starts with
`keys["month"].split("-")[0]` — the year digits. -/
def can_make_request (st : RedisRateLimiter) (now : PyDate) :
    RedisRateLimiter × Bool × Option String :=
  match getPeriodKeys st now with
  | (st1, hk, dk, mk) =>
    let hour_count := (st1.request_counts.lookup hk).getD 0
    let day_count := (st1.request_counts.lookup dk).getD 0
    let month_count := sumBucketsWith st1.request_counts (splitHead mk)
    if st1.max_requests_per_hour ≤ hour_count then
      (st1, false, some ("Hourly limit reached: " ++ toString hour_count ++
        "/" ++ toString st1.max_requests_per_hour))
    else if st1.max_requests_per_day ≤ day_count then
      (st1, false, some ("Daily limit reached: " ++ toString day_count ++
        "/" ++ toString st1.max_requests_per_day))
    else if st1.max_requests_per_month ≤ month_count then
      (st1, false, some ("Monthly limit reached: " ++ toString month_count ++
        "/" ++ toString st1.max_requests_per_month))
    else (st1, true, none)

/-- The dictionary `get_usage_stats()` returns (counts and limits; the hour
percentage is reported alongside). -/
structure RedisUsage where
  hour_count : ℕ
  hour_limit : ℕ
  hour_percentage : ℚ
  day_count : ℕ
  day_limit : ℕ
  month_count : ℕ
  month_limit : ℕ
  deriving DecidableEq, Repr

/-- `RedisRateLimiter.get_usage_stats()`: the hour count is the direct
bucket, but the day count sums every bucket whose key starts with the day
key, and the month count every bucket whose key starts with the year
digits. -/
def get_usage_stats (st : RedisRateLimiter) (now : PyDate) :
    RedisRateLimiter × RedisUsage :=
  match getPeriodKeys st now with
  | (st1, hk, dk, mk) =>
    let hour_count := (st1.request_counts.lookup hk).getD 0
    (st1,
     { hour_count := hour_count
       hour_limit := st1.max_requests_per_hour
       hour_percentage :=
         ((hour_count : ℚ) / (st1.max_requests_per_hour : ℚ)) * 100
       day_count := sumBucketsWith st1.request_counts dk
       day_limit := st1.max_requests_per_day
       month_count := sumBucketsWith st1.request_counts (splitHead mk)
       month_limit := st1.max_requests_per_month })

/-- `n` calls to `record_request`, all at instant `d`. -/
def recordN (st : RedisRateLimiter) (d : PyDate) : ℕ → RedisRateLimiter
  | 0 => st
  | n + 1 => record_request (recordN st d n) d

/-! ### Claim C10 — per-period counts -/

/-- The facts about the three bucket keys of an instant that the counting
argument uses: the keys are pairwise distinct, the hour key extends the day
key, the month key does not, and all three start with the year digits.
These hold for every real calendar instant (the witness checks one by
computation). -/
abbrev BucketKeysSane (d : PyDate) : Prop :=
  hourBucketKey d ≠ dayBucketKey d ∧
  hourBucketKey d ≠ monthBucketKey d ∧
  dayBucketKey d ≠ monthBucketKey d ∧
  strStartsWith (hourBucketKey d) (dayBucketKey d) = true ∧
  strStartsWith (dayBucketKey d) (dayBucketKey d) = true ∧
  strStartsWith (monthBucketKey d) (dayBucketKey d) = false ∧
  strStartsWith (hourBucketKey d) (splitHead (monthBucketKey d)) = true ∧
  strStartsWith (dayBucketKey d) (splitHead (monthBucketKey d)) = true ∧
  strStartsWith (monthBucketKey d) (splitHead (monthBucketKey d)) = true

theorem recordN_state (d : PyDate) (hmax dmax mmax : ℕ)
    (hS : BucketKeysSane d) : ∀ n : ℕ,
    (recordN (RedisRateLimiter.init hmax dmax mmax d) d n).request_counts =
      (if n = 0 then [] else
        [(hourBucketKey d, n), (dayBucketKey d, n), (monthBucketKey d, n)]) ∧
    (recordN (RedisRateLimiter.init hmax dmax mmax d) d n).monthly_reset_date
      = { d with day := 1, hour := 0 } ∧
    (recordN (RedisRateLimiter.init hmax dmax mmax d) d
      n).max_requests_per_hour = hmax ∧
    (recordN (RedisRateLimiter.init hmax dmax mmax d) d
      n).max_requests_per_day = dmax ∧
    (recordN (RedisRateLimiter.init hmax dmax mmax d) d
      n).max_requests_per_month = mmax := by
  obtain ⟨hd1, hd2, hd3, -, -, -, -, -, -⟩ := hS
  have bdh : (dayBucketKey d == hourBucketKey d) = false :=
    beq_eq_false_iff_ne.mpr (Ne.symm hd1)
  have bmh : (monthBucketKey d == hourBucketKey d) = false :=
    beq_eq_false_iff_ne.mpr (Ne.symm hd2)
  have bmd : (monthBucketKey d == dayBucketKey d) = false :=
    beq_eq_false_iff_ne.mpr (Ne.symm hd3)
  have bhd : (hourBucketKey d == dayBucketKey d) = false :=
    beq_eq_false_iff_ne.mpr hd1
  have bhm : (hourBucketKey d == monthBucketKey d) = false :=
    beq_eq_false_iff_ne.mpr hd2
  have bdm : (dayBucketKey d == monthBucketKey d) = false :=
    beq_eq_false_iff_ne.mpr hd3
  intro n
  induction n with
  | zero => exact ⟨rfl, rfl, rfl, rfl, rfl⟩
  | succ n ih =>
    obtain ⟨hc, hm, hh, hdd, hmm⟩ := ih
    have hnoroll :
        getPeriodKeys (recordN (RedisRateLimiter.init hmax dmax mmax d) d n) d
          = (recordN (RedisRateLimiter.init hmax dmax mmax d) d n,
             hourBucketKey d, dayBucketKey d, monthBucketKey d) := by
      unfold getPeriodKeys
      rw [hm]
      simp
    refine ⟨?_, ?_, ?_, ?_, ?_⟩ <;>
      simp only [recordN, record_request, hnoroll]
    · rw [hc]
      by_cases hn : n = 0
      · subst hn
        simp [bumpBucket, List.lookup, bdh, bmh, bmd, dictSet]
      · simp only [if_neg hn, if_neg (Nat.succ_ne_zero n)]
        simp [bumpBucket, List.lookup, bdh, bmh, bmd, bhd, bhm, bdm, dictSet,
          hd1, hd2, hd3]
    · exact hm
    · exact hh
    · exact hdd
    · exact hmm

/-- A sample instant: 2025-06-15, hour 09. -/
def sampleDate : PyDate := ⟨2025, 6, 15, 9⟩

/-- Claim C10, counterexample: a freshly constructed `RedisRateLimiter`
(default ceilings) with exactly one `record_request` in the current hour
reports a day count of 2 and a month count of 3 from `get_usage_stats` —
not 1 for each period as the claim states: the day sum double-counts the
hour bucket (its key starts with the day key) and the month sum counts all
three buckets (their keys all start with the year digits). -/
theorem c10_usage_stats_counterexample :
    (get_usage_stats
      (record_request (RedisRateLimiter.init 1000 10000 100000 sampleDate)
        sampleDate) sampleDate).2.hour_count = 1 ∧
    (get_usage_stats
      (record_request (RedisRateLimiter.init 1000 10000 100000 sampleDate)
        sampleDate) sampleDate).2.day_count = 2 ∧
    (get_usage_stats
      (record_request (RedisRateLimiter.init 1000 10000 100000 sampleDate)
        sampleDate) sampleDate).2.month_count = 3 := by
  refine ⟨?_, ?_, ?_⟩ <;> decide

/-- Claim C10, amended: for every freshly constructed `RedisRateLimiter` and
every `n` calls to `record_request` all made at one instant (no period
rollover), `get_usage_stats` reports a count of `n` for the hour period but
`2n` for the day period (the day sum also includes the hour bucket, whose
key extends the day key) and `3n` for the month period (the month sum
includes every bucket whose key begins with the year digits);
`can_make_request` compares the direct hour bucket (`n`), the direct day
bucket (`n`) and the same year-sum (`3n`) against the configured
hourly/daily/monthly ceilings. -/
theorem c10_redis_period_counts (d : PyDate) (hmax dmax mmax n : ℕ)
    (hS : BucketKeysSane d) :
    (get_usage_stats (recordN (RedisRateLimiter.init hmax dmax mmax d) d n)
      d).2.hour_count = n ∧
    (get_usage_stats (recordN (RedisRateLimiter.init hmax dmax mmax d) d n)
      d).2.day_count = 2 * n ∧
    (get_usage_stats (recordN (RedisRateLimiter.init hmax dmax mmax d) d n)
      d).2.month_count = 3 * n ∧
    (get_usage_stats (recordN (RedisRateLimiter.init hmax dmax mmax d) d n)
      d).2.hour_limit = hmax ∧
    (get_usage_stats (recordN (RedisRateLimiter.init hmax dmax mmax d) d n)
      d).2.day_limit = dmax ∧
    (get_usage_stats (recordN (RedisRateLimiter.init hmax dmax mmax d) d n)
      d).2.month_limit = mmax ∧
    ((can_make_request (recordN (RedisRateLimiter.init hmax dmax mmax d) d n)
      d).2.1 = true ↔ (n < hmax ∧ n < dmax ∧ 3 * n < mmax)) := by
  obtain ⟨hc, hm, hh, hdd, hmm⟩ := recordN_state d hmax dmax mmax hS n
  obtain ⟨hd1, hd2, hd3, s1, s2, s3, y1, y2, y3⟩ := hS
  have bdh : (dayBucketKey d == hourBucketKey d) = false :=
    beq_eq_false_iff_ne.mpr (Ne.symm hd1)
  have hnoroll :
      getPeriodKeys (recordN (RedisRateLimiter.init hmax dmax mmax d) d n) d
        = (recordN (RedisRateLimiter.init hmax dmax mmax d) d n,
           hourBucketKey d, dayBucketKey d, monthBucketKey d) := by
    unfold getPeriodKeys
    rw [hm]
    simp
  by_cases hn : n = 0
  · subst hn
    have hc0 : (recordN (RedisRateLimiter.init hmax dmax mmax d) d
        0).request_counts = [] := rfl
    simp only [get_usage_stats, can_make_request, hnoroll, hc0,
      List.lookup_nil, Option.getD_none, sumBucketsWith, List.filter_nil,
      List.map_nil, List.sum_nil, hh, hdd, hmm]
    refine ⟨trivial, by omega, by omega, trivial, trivial, trivial, ?_⟩
    constructor
    · intro htrue
      by_cases h1 : hmax ≤ 0
      · rw [if_pos h1] at htrue
        exact absurd htrue (by simp)
      · by_cases h2 : dmax ≤ 0
        · rw [if_neg h1, if_pos h2] at htrue
          exact absurd htrue (by simp)
        · by_cases h3 : mmax ≤ 0
          · rw [if_neg h1, if_neg h2, if_pos h3] at htrue
            exact absurd htrue (by simp)
          · omega
    · rintro ⟨g1, g2, g3⟩
      rw [if_neg (by omega), if_neg (by omega), if_neg (by omega)]
  · simp only [get_usage_stats, can_make_request, hnoroll, hc, if_neg hn]
    have hlookH :
        List.lookup (hourBucketKey d)
          [(hourBucketKey d, n), (dayBucketKey d, n), (monthBucketKey d, n)]
          = some n := by
      simp [List.lookup]
    have hlookD :
        List.lookup (dayBucketKey d)
          [(hourBucketKey d, n), (dayBucketKey d, n), (monthBucketKey d, n)]
          = some n := by
      simp [List.lookup, bdh]
    have hsumD :
        sumBucketsWith
          [(hourBucketKey d, n), (dayBucketKey d, n), (monthBucketKey d, n)]
          (dayBucketKey d) = 2 * n := by
      simp [sumBucketsWith, List.filter, s1, s2, s3]
      ring
    have hsumY :
        sumBucketsWith
          [(hourBucketKey d, n), (dayBucketKey d, n), (monthBucketKey d, n)]
          (splitHead (monthBucketKey d)) = 3 * n := by
      simp [sumBucketsWith, List.filter, y1, y2, y3]
      ring
    refine ⟨by simp [hlookH], by rw [hsumD], by rw [hsumY], hh, hdd, hmm, ?_⟩
    simp only [hlookH, hlookD, hsumY, hh, hdd, hmm, Option.getD_some]
    constructor
    · intro htrue
      by_cases h1 : hmax ≤ n
      · simp [if_pos h1] at htrue
      · by_cases h2 : dmax ≤ n
        · simp [if_neg h1, if_pos h2] at htrue
        · by_cases h3 : mmax ≤ 3 * n
          · simp [if_neg h1, if_neg h2, if_pos h3] at htrue
          · omega
    · rintro ⟨h1, h2, h3⟩
      rw [if_neg (by omega), if_neg (by omega), if_neg (by omega)]

/-- Claim C10, witness: the amended counts at the sample instant with the
default ceilings and one recorded request. -/
theorem c10_redis_period_witness :
    (get_usage_stats (recordN (RedisRateLimiter.init 1000 10000 100000
      sampleDate) sampleDate 1) sampleDate).2.hour_count = 1 ∧
    (get_usage_stats (recordN (RedisRateLimiter.init 1000 10000 100000
      sampleDate) sampleDate 1) sampleDate).2.day_count = 2 * 1 ∧
    (get_usage_stats (recordN (RedisRateLimiter.init 1000 10000 100000
      sampleDate) sampleDate 1) sampleDate).2.month_count = 3 * 1 ∧
    ((can_make_request (recordN (RedisRateLimiter.init 1000 10000 100000
      sampleDate) sampleDate 1) sampleDate).2.1 = true ↔
      (1 < 1000 ∧ 1 < 10000 ∧ 3 * 1 < 100000)) := by
  obtain ⟨h1, h2, h3, -, -, -, h7⟩ :=
    c10_redis_period_counts sampleDate 1000 10000 100000 1 (by decide)
  exact ⟨h1, h2, h3, h7⟩

/-! ## `src/coordination/coordinator.py` — the fixed-pipeline coordinator

`WorkflowCoordinator.generate_all_docs(user_idea, project_id, profile)`
(lines 258–917).  The ~20 agents' `generate_and_save` calls are abstracted
as an oracle `GenOracle` from the result-dictionary key of the step to
either the saved file path or the raised exception's message — the claims
quantify over whatever the agents do, and the agents cannot touch the
`results` dictionary, which is a local of `generate_all_docs`.  Context
reads (`get_shared_context`, `get_agent_output`) form a second oracle;
reading the same key twice yields the same answer, matching a database that
no one else writes during the run.  The non-fatal post-processing blocks
(collection reads, cross-referencing, index generation, the auto-fix loop,
the CLI summary, format conversion) consult a third oracle whose failures
are caught by their inner `except` handlers exactly as in the source.

`GenResults` is the `results` dictionary (`project_id`, `user_idea`,
`profile`, `files`, `status`, and the `error` key set only by the top-level
handler), plus one piece of instrumentation that Python does not store:
`invoked` records the result-keys of the agent calls actually made, so that
"step X was (not) executed" is a provable statement. -/

structure GenResults where
  project_id : String
  user_idea : String
  profile : String
  files : List (String × String)
  status : List (String × String)
  error : Option String
  invoked : List String
  deriving DecidableEq, Repr

/-- An agent's `generate_and_save`: result-dictionary key ↦ saved file path,
or the raised exception's message. -/
abbrev GenOracle := String → Except String String

/-- A context read: `"shared_context"` yields whether the requirements row
exists (the only part of the shared context the pipeline's control flow
inspects); other keys are `get_agent_output(project_id, AgentType.<KEY>)`
yielding the output's content or `None`.  `.error` models the read raising
(the store re-raises storage errors). -/
abbrev ReadOracle := String → Except String (Option String)

/-- The Python local variables threaded between steps that influence
control flow: `charter_summary` (step 5 re-reads the Project Charter only
when it is still `None`).  The other summaries are read and passed to
agents but never branch, so their values stay inside the oracles. -/
structure WfState where
  results : GenResults
  charter_summary : Option String
  deriving DecidableEq, Repr

/-- One step of the fixed sequence, as the source orders them. -/
inductive WStep
  /-- A profile-unconditional or profile-selected `generate_and_save` whose
  success records `files[key] = path` and `status[key] = "complete"` and
  whose exception propagates to the top-level handler. -/
  | gen (key : String)
  /-- `results["status"][key] = "skipped"` on the individual profile. -/
  | skip (key : String)
  /-- A `get_agent_output` read whose value only feeds an agent prompt. -/
  | readOut (key : String)
  /-- Step 4, team only: read the Project Charter into `charter_summary`. -/
  | readCharter
  /-- Step 5: read the Project Charter only if `charter_summary is None`. -/
  | readCharterIfNone
  /-- Step 2: `get_shared_context` plus
  `raise ValueError("Requirements not found in context")` when the
  requirements are absent. -/
  | readCtx
  /-- Step 20's collection loop: per-document reads in their own `try`,
  mutating only local aggregation state. -/
  | collect
  /-- The cross-referencing `try` block with the nested index `try` block:
  only a fully successful index write touches `results`
  (`files["document_index"]`). -/
  | crossRef
  /-- The auto-fix `try` block (runs only when enabled): success stores the
  loop's summary line under `status["auto_fix"]`, a caught exception stores
  `"failed: <msg>"`. -/
  | autoFix (enabled : Bool)
  /-- The CLI-summary `try` block (`claude_cli_documentation`). -/
  | softGenCli
  /-- Format conversion: full formats, else HTML-only fallback
  (`"partial (HTML only)"`), else `status = "skipped"`. -/
  | formatConv
  deriving DecidableEq, Repr

/-- Execute one step: `.ok` continues, `.error` carries the results
accumulated so far to the top-level handler together with the message. -/
def runStep (g : GenOracle) (rd : ReadOracle) (sf : GenOracle) :
    WStep → WfState → Except (WfState × String) WfState
  | .gen key, st =>
    let r0 := { st.results with invoked := st.results.invoked ++ [key] }
    match g key with
    | .ok path =>
      .ok { st with results :=
        { r0 with files := dictSet r0.files key path
                  status := dictSet r0.status key "complete" } }
    | .error m => .error ({ st with results := r0 }, m)
  | .skip key, st =>
    .ok { st with results :=
      { st.results with status := dictSet st.results.status key "skipped" } }
  | .readOut key, st =>
    match rd key with
    | .ok _ => .ok st
    | .error m => .error (st, m)
  | .readCharter, st =>
    match rd "project_charter" with
    | .ok v => .ok { st with charter_summary := v }
    | .error m => .error (st, m)
  | .readCharterIfNone, st =>
    match st.charter_summary with
    | some _ => .ok st
    | none =>
      match rd "project_charter" with
      | .ok v => .ok { st with charter_summary := v }
      | .error m => .error (st, m)
  | .readCtx, st =>
    match rd "shared_context" with
    | .error m => .error (st, m)
    | .ok none => .error (st, "Requirements not found in context")
    | .ok (some _) => .ok st
  | .collect, st => .ok st
  | .crossRef, st =>
    match sf "cross_references" with
    | .error _ => .ok st
    | .ok _ =>
      match sf "document_index" with
      | .error _ => .ok st
      | .ok p =>
        .ok { st with results :=
          { st.results with
              files := dictSet st.results.files "document_index" p } }
  | .autoFix enabled, st =>
    if enabled then
      match sf "auto_fix" with
      | .ok summary =>
        .ok { st with results :=
          { st.results with
              status := dictSet st.results.status "auto_fix" summary } }
      | .error m =>
        .ok { st with results :=
          { st.results with
              status := dictSet st.results.status "auto_fix"
                ("failed: " ++ m) } }
    else .ok st
  | .softGenCli, st =>
    let r0 := { st.results with
      invoked := st.results.invoked ++ ["claude_cli_documentation"] }
    match sf "claude_cli_documentation" with
    | .ok p =>
      .ok { st with results :=
        { r0 with
            files := dictSet r0.files "claude_cli_documentation" p
            status := dictSet r0.status "claude_cli_documentation"
              "complete" } }
    | .error _ => .ok { st with results := r0 }
  | .formatConv, st =>
    let r0 := { st.results with
      invoked := st.results.invoked ++ ["format_conversions"] }
    match sf "format_conversions" with
    | .ok v =>
      .ok { st with results :=
        { r0 with
            files := dictSet r0.files "format_conversions" v
            status := dictSet r0.status "format_conversions" "complete" } }
    | .error _ =>
      match sf "format_conversions_html" with
      | .ok v =>
        .ok { st with results :=
          { r0 with
              files := dictSet r0.files "format_conversions" v
              status := dictSet r0.status "format_conversions"
                "partial (HTML only)" } }
      | .error _ =>
        .ok { st with results :=
          { r0 with
              status := dictSet r0.status "format_conversions" "skipped" } }

def runSteps (g : GenOracle) (rd : ReadOracle) (sf : GenOracle) :
    List WStep → WfState → Except (WfState × String) WfState
  | [], st => .ok st
  | s :: rest, st =>
    match runStep g rd sf s st with
    | .ok st' => runSteps g rd sf rest st'
    | .error e => .error e

/-- The fixed numbered sequence of `generate_all_docs` (Steps 1–20 of the
source, with the step-20 post-processing blocks), with the profile-gated
branches inline.  Output filenames per step: `requirements.md`,
`project_charter.md`, `project_plan.md`, `user_stories.md`,
`technical_spec.md`, `database_schema.md`, `api_documentation.md`,
`setup_guide.md`, `developer_guide.md`, `stakeholder_summary.md`,
`test_plan.md`, `user_guide.md`, `business_model.md`, `marketing_plan.md`,
`support_playbook.md`, `legal_compliance.md`, `quality_review.md`. -/
def pipelineSteps (profile : String) (enableAutoFix : Bool) : List WStep :=
  [.gen "requirements", .readCtx]
  ++ (if profile = "team" then
        [.gen "project_charter", .readCharter, .gen "pm_documentation"]
      else
        [.skip "project_charter", .skip "pm_documentation"])
  ++ [.readCharterIfNone, .gen "user_stories", .readOut "user_stories"]
  ++ (if profile = "team" then [.readOut "pm_documentation"] else [])
  ++ [.gen "technical_documentation", .readOut "technical_documentation",
      .gen "database_schema", .gen "api_documentation",
      .readOut "api_documentation", .gen "setup_guide",
      .gen "developer_documentation"]
  ++ (if profile = "team" then
        [.readOut "pm_documentation", .gen "stakeholder_documentation"]
      else [.skip "stakeholder_documentation"])
  ++ [.gen "test_documentation", .gen "user_documentation"]
  ++ (if profile = "team" then [.gen "business_model"]
      else [.skip "business_model"])
  ++ (if profile = "team" then [.readOut "business_model", .gen "marketing_plan"]
      else [.skip "marketing_plan"])
  ++ [.readOut "user_documentation", .gen "support_playbook",
      .gen "legal_compliance", .collect, .crossRef, .gen "quality_review",
      .autoFix enableAutoFix, .softGenCli, .formatConv]

/-- `generate_all_docs(user_idea, project_id, profile)`: build the results
dictionary, run the sequence inside the single top-level `try`, and on an
escaped exception record its message under `"error"` and return the results
accumulated so far.  (`enableAutoFix` is the `ENABLE_AUTO_FIX`
settings/environment flag, default false; the trailing level-organized
summary attachment is a pure reporting step outside the claims.) -/
def generate_all_docs (g : GenOracle) (rd : ReadOracle) (sf : GenOracle)
    (user_idea project_id profile : String) (enableAutoFix : Bool) :
    GenResults :=
  let r0 : GenResults :=
    { project_id := project_id
      user_idea := user_idea
      profile := profile
      files := []
      status := []
      error := none
      invoked := [] }
  match runSteps g rd sf (pipelineSteps profile enableAutoFix)
      { results := r0, charter_summary := none } with
  | .ok st => st.results
  | .error (st, msg) => { st.results with error := some msg }

/-! ### Structural lemmas about the step interpreter -/

/-- The state carried by a step outcome (the raising branch carries the
results accumulated so far). -/
def outState : Except (WfState × String) WfState → WfState
  | .ok st => st
  | .error (st, _) => st

theorem runStep_meta (g : GenOracle) (rd : ReadOracle) (sf : GenOracle)
    (s : WStep) (st : WfState) :
    (outState (runStep g rd sf s st)).results.project_id =
      st.results.project_id ∧
    (outState (runStep g rd sf s st)).results.user_idea =
      st.results.user_idea ∧
    (outState (runStep g rd sf s st)).results.profile = st.results.profile := by
  cases s <;> simp only [runStep] <;> (repeat' split) <;> simp [outState]

theorem runSteps_meta (g : GenOracle) (rd : ReadOracle) (sf : GenOracle)
    (steps : List WStep) (st : WfState) :
    (outState (runSteps g rd sf steps st)).results.project_id =
      st.results.project_id ∧
    (outState (runSteps g rd sf steps st)).results.user_idea =
      st.results.user_idea ∧
    (outState (runSteps g rd sf steps st)).results.profile =
      st.results.profile := by
  induction steps generalizing st with
  | nil => simp [runSteps, outState]
  | cons s rest ih =>
    have h1 := runStep_meta g rd sf s st
    simp only [runSteps]
    cases h : runStep g rd sf s st with
    | ok st1 =>
      rw [h] at h1
      simp only [outState] at h1
      obtain ⟨a, b, c⟩ := ih st1
      exact ⟨a.trans h1.1, b.trans h1.2.1, c.trans h1.2.2⟩
    | error e =>
      obtain ⟨st1, m⟩ := e
      rw [h] at h1
      simpa [outState] using h1

/-- Where an escaped exception's message can come from: an agent call, a
context read, or the explicit requirements check.  The soft oracle is
absent — its failures are absorbed by the inner handlers. -/
def ErrFrom (g : GenOracle) (rd : ReadOracle) (m : String) : Prop :=
  (∃ k, g k = .error m) ∨ (∃ k, rd k = .error m) ∨
    m = "Requirements not found in context"

theorem runStep_err (g : GenOracle) (rd : ReadOracle) (sf : GenOracle)
    (s : WStep) (st st' : WfState) (m : String)
    (h : runStep g rd sf s st = .error (st', m)) : ErrFrom g rd m := by
  cases s with
  | gen key =>
    cases hg : g key with
    | ok v => simp [runStep, hg] at h
    | error e =>
      simp [runStep, hg] at h
      exact Or.inl ⟨key, by rw [hg, h.2]⟩
  | skip key => simp [runStep] at h
  | readOut key =>
    cases hr : rd key with
    | ok v => simp [runStep, hr] at h
    | error e =>
      simp [runStep, hr] at h
      exact Or.inr (Or.inl ⟨key, by rw [hr, h.2]⟩)
  | readCharter =>
    cases hr : rd "project_charter" with
    | ok v => simp [runStep, hr] at h
    | error e =>
      simp [runStep, hr] at h
      exact Or.inr (Or.inl ⟨"project_charter", by rw [hr, h.2]⟩)
  | readCharterIfNone =>
    cases hc : st.charter_summary with
    | some v => simp [runStep, hc] at h
    | none =>
      cases hr : rd "project_charter" with
      | ok v => simp [runStep, hc, hr] at h
      | error e =>
        simp [runStep, hc, hr] at h
        exact Or.inr (Or.inl ⟨"project_charter", by rw [hr, h.2]⟩)
  | readCtx =>
    cases hr : rd "shared_context" with
    | ok v =>
      cases v with
      | some c => simp [runStep, hr] at h
      | none =>
        simp [runStep, hr] at h
        exact Or.inr (Or.inr h.2.symm)
    | error e =>
      simp [runStep, hr] at h
      exact Or.inr (Or.inl ⟨"shared_context", by rw [hr, h.2]⟩)
  | collect => simp [runStep] at h
  | crossRef =>
    cases h1 : sf "cross_references" with
    | ok v =>
      cases h2 : sf "document_index" <;> simp [runStep, h1, h2] at h
    | error e => simp [runStep, h1] at h
  | autoFix enabled =>
    by_cases he : enabled
    · cases h1 : sf "auto_fix" <;> simp [runStep, he, h1] at h
    · simp [runStep, he] at h
  | softGenCli =>
    cases h1 : sf "claude_cli_documentation" <;> simp [runStep, h1] at h
  | formatConv =>
    cases h1 : sf "format_conversions" with
    | ok v => simp [runStep, h1] at h
    | error e =>
      cases h2 : sf "format_conversions_html" <;> simp [runStep, h1, h2] at h

theorem runSteps_err (g : GenOracle) (rd : ReadOracle) (sf : GenOracle)
    (steps : List WStep) (st st' : WfState) (m : String)
    (h : runSteps g rd sf steps st = .error (st', m)) : ErrFrom g rd m := by
  induction steps generalizing st with
  | nil => simp [runSteps] at h
  | cons s rest ih =>
    simp only [runSteps] at h
    cases hs : runStep g rd sf s st with
    | ok st1 =>
      rw [hs] at h
      exact ih st1 h
    | error e =>
      obtain ⟨st1, m1⟩ := e
      rw [hs] at h
      obtain ⟨h1, h2⟩ := Prod.mk.injEq .. ▸ (Except.error.injEq .. ▸ h)
      exact h2 ▸ runStep_err g rd sf s st st1 m1 hs

/-- The hypotheses under which every hard step succeeds: every agent call
returns, every context read returns, and the shared context has a
requirements row. -/
def OracleOk (g : GenOracle) (rd : ReadOracle) : Prop :=
  (∀ k, ∃ v, g k = .ok v) ∧ (∀ k, ∃ o, rd k = .ok o) ∧
    (∃ v, rd "shared_context" = .ok (some v))

/-- Whether an outcome is the `.ok` branch. -/
def isOkE {ε α : Type} : Except ε α → Bool
  | .ok _ => true
  | .error _ => false

theorem exists_ok_of_isOkE {ε α : Type} (x : Except ε α)
    (h : isOkE x = true) : ∃ a, x = .ok a := by
  cases x with
  | ok a => exact ⟨a, rfl⟩
  | error e => simp [isOkE] at h

theorem runStep_ok (g : GenOracle) (rd : ReadOracle) (sf : GenOracle)
    (hok : OracleOk g rd) (s : WStep) (st : WfState) :
    ∃ st', runStep g rd sf s st = .ok st' := by
  obtain ⟨hg, hr, hctx⟩ := hok
  apply exists_ok_of_isOkE
  cases s with
  | gen key =>
    obtain ⟨v, hv⟩ := hg key
    simp [runStep, hv, isOkE]
  | skip key => simp [runStep, isOkE]
  | readOut key =>
    obtain ⟨o, ho⟩ := hr key
    simp [runStep, ho, isOkE]
  | readCharter =>
    obtain ⟨o, ho⟩ := hr "project_charter"
    simp [runStep, ho, isOkE]
  | readCharterIfNone =>
    cases hc : st.charter_summary with
    | some v => simp [runStep, hc, isOkE]
    | none =>
      obtain ⟨o, ho⟩ := hr "project_charter"
      simp [runStep, hc, ho, isOkE]
  | readCtx =>
    obtain ⟨v, hv⟩ := hctx
    simp [runStep, hv, isOkE]
  | collect => simp [runStep, isOkE]
  | crossRef =>
    cases h1 : sf "cross_references" with
    | ok v => cases h2 : sf "document_index" <;> simp [runStep, h1, h2, isOkE]
    | error e => simp [runStep, h1, isOkE]
  | autoFix enabled =>
    by_cases he : enabled
    · cases h1 : sf "auto_fix" <;> simp [runStep, he, h1, isOkE]
    · simp [runStep, he, isOkE]
  | softGenCli =>
    cases h1 : sf "claude_cli_documentation" <;> simp [runStep, h1, isOkE]
  | formatConv =>
    cases h1 : sf "format_conversions" with
    | ok v => simp [runStep, h1, isOkE]
    | error e =>
      cases h2 : sf "format_conversions_html" <;> simp [runStep, h1, h2, isOkE]

theorem runSteps_ok (g : GenOracle) (rd : ReadOracle) (sf : GenOracle)
    (hok : OracleOk g rd) (steps : List WStep) (st : WfState) :
    ∃ st', runSteps g rd sf steps st = .ok st' := by
  induction steps generalizing st with
  | nil => exact ⟨st, rfl⟩
  | cons s rest ih =>
    obtain ⟨st1, h1⟩ := runStep_ok g rd sf hok s st
    obtain ⟨st2, h2⟩ := ih st1
    exact ⟨st2, by simp [runSteps, h1, h2]⟩

theorem runStep_error_field (g : GenOracle) (rd : ReadOracle) (sf : GenOracle)
    (s : WStep) (st : WfState) :
    (outState (runStep g rd sf s st)).results.error = st.results.error := by
  cases s <;> simp only [runStep] <;> (repeat' split) <;> simp [outState]

theorem runSteps_error_field (g : GenOracle) (rd : ReadOracle) (sf : GenOracle)
    (steps : List WStep) (st : WfState) :
    (outState (runSteps g rd sf steps st)).results.error =
      st.results.error := by
  induction steps generalizing st with
  | nil => simp [runSteps, outState]
  | cons s rest ih =>
    have h1 := runStep_error_field g rd sf s st
    simp only [runSteps]
    cases h : runStep g rd sf s st with
    | ok st1 =>
      rw [h] at h1
      simp only [outState] at h1
      exact (ih st1).trans h1
    | error e =>
      obtain ⟨st1, m⟩ := e
      rw [h] at h1
      simpa [outState] using h1

/-- The status value a step writes under key `k` (hard and skip writes; the
soft post-processing writes go to `auto_fix` / `claude_cli_documentation` /
`format_conversions` only). -/
def stepStatusWrite (k : String) : WStep → Option String
  | .gen key => if k = key then some "complete" else none
  | .skip key => if k = key then some "skipped" else none
  | _ => none

/-- The final status value under `k` after a list of steps, starting from
`acc` (later writes win). -/
def statusTrace (k : String) : List WStep → Option String → Option String
  | [], acc => acc
  | s :: rest, acc =>
    statusTrace k rest
      (match stepStatusWrite k s with
       | some v => some v
       | none => acc)

/-- The keys the soft post-processing blocks may write to `status`. -/
abbrev SoftStatusKey (k : String) : Prop :=
  k = "auto_fix" ∨ k = "claude_cli_documentation" ∨ k = "format_conversions"

theorem runStep_status (g : GenOracle) (rd : ReadOracle) (sf : GenOracle)
    (k : String) (hk : ¬ SoftStatusKey k) (s : WStep) (st st' : WfState)
    (h : runStep g rd sf s st = .ok st') :
    st'.results.status.lookup k =
      (match stepStatusWrite k s with
       | some v => some v
       | none => st.results.status.lookup k) := by
  have haf : k ≠ "auto_fix" := fun hh => hk (Or.inl hh)
  have hcli : k ≠ "claude_cli_documentation" := fun hh => hk (Or.inr (Or.inl hh))
  have hfc : k ≠ "format_conversions" := fun hh => hk (Or.inr (Or.inr hh))
  cases s <;>
    simp only [runStep] at h <;>
    (repeat' split at h) <;>
    (cases h) <;>
    (try simp [stepStatusWrite, lookup_dictSet, haf, hcli, hfc]) <;>
    (split <;> simp)

theorem runSteps_status (g : GenOracle) (rd : ReadOracle) (sf : GenOracle)
    (k : String) (hk : ¬ SoftStatusKey k) (steps : List WStep)
    (st st' : WfState) (h : runSteps g rd sf steps st = .ok st') :
    st'.results.status.lookup k =
      statusTrace k steps (st.results.status.lookup k) := by
  induction steps generalizing st with
  | nil =>
    simp only [runSteps] at h
    cases h
    rfl
  | cons s rest ih =>
    simp only [runSteps] at h
    cases hs : runStep g rd sf s st with
    | ok st1 =>
      rw [hs] at h
      rw [ih st1 h, statusTrace, runStep_status g rd sf k hk s st st1 hs]
    | error e =>
      rw [hs] at h
      cases h

/-- The result-keys of the agent calls a step makes (ghost
instrumentation). -/
def stepInvokes : WStep → List String
  | .gen key => [key]
  | .softGenCli => ["claude_cli_documentation"]
  | .formatConv => ["format_conversions"]
  | _ => []

theorem runStep_invoked (g : GenOracle) (rd : ReadOracle) (sf : GenOracle)
    (s : WStep) (st st' : WfState) (h : runStep g rd sf s st = .ok st') :
    st'.results.invoked = st.results.invoked ++ stepInvokes s := by
  cases s <;>
    simp only [runStep] at h <;>
    (repeat' split at h) <;>
    (cases h) <;>
    simp [stepInvokes]

theorem runSteps_invoked (g : GenOracle) (rd : ReadOracle) (sf : GenOracle)
    (steps : List WStep) (st st' : WfState)
    (h : runSteps g rd sf steps st = .ok st') :
    st'.results.invoked =
      st.results.invoked ++ ((steps.map stepInvokes).flatten) := by
  induction steps generalizing st with
  | nil =>
    simp only [runSteps] at h
    cases h
    simp
  | cons s rest ih =>
    simp only [runSteps] at h
    cases hs : runStep g rd sf s st with
    | ok st1 =>
      rw [hs] at h
      rw [ih st1 h, runStep_invoked g rd sf s st st1 hs]
      simp
    | error e =>
      rw [hs] at h
      cases h

/-! ### Claim C1 — the top-level exception handler -/

/-- Agent oracle for the C1 counterexample: every agent call succeeds. -/
def cexGen : GenOracle := fun k => .ok ("docs/" ++ k ++ ".md")

/-- Read oracle for the C1 counterexample: every context read succeeds. -/
def cexReads : ReadOracle := fun _ => .ok (some "content")

/-- Soft oracle for the C1 counterexample: the CLI-summary agent raises. -/
def cexSoft : GenOracle := fun k =>
  if k = "claude_cli_documentation" then .error "boom" else .ok ("out_" ++ k)

set_option maxRecDepth 4000 in
/-- Claim C1, counterexample: in a team-profile run in which the CLI-summary
agent raises (`"boom"`), the exception is thrown inside the generation
sequence by a step that was invoked, yet the returned dictionary's `error`
field is `None` — the inner `try` around the CLI step absorbs it, so not
every exception's message reaches the top-level handler's `error` field. -/
theorem c1_inner_handler_counterexample :
    cexSoft "claude_cli_documentation" = .error "boom" ∧
    "claude_cli_documentation" ∈
      (generate_all_docs cexGen cexReads cexSoft "a blog" "project_1" "team"
        false).invoked ∧
    (generate_all_docs cexGen cexReads cexSoft "a blog" "project_1" "team"
      false).error = none := by
  refine ⟨rfl, ?_, ?_⟩ <;> decide

/-- Claim C1, amended: `generate_all_docs` never raises — it always returns
the results dictionary, whose `project_id`, `user_idea` and `profile` are
the call's arguments (with `files` and `status` holding whatever the run
accumulated); any exception that escapes a generation step or a context
read is caught once at the top level and its message recorded in the
returned dictionary's `error` field (the message always originates from an
agent call, a context read, or the explicit requirements check — never from
the non-fatal post-processing blocks, whose inner handlers absorb their
exceptions without touching `error`); and when every agent call and context
read succeeds, `error` is unset. -/
theorem c1_top_level_catch (g : GenOracle) (rd : ReadOracle) (sf : GenOracle)
    (user_idea project_id profile : String) (enableAutoFix : Bool) :
    (generate_all_docs g rd sf user_idea project_id profile
      enableAutoFix).project_id = project_id ∧
    (generate_all_docs g rd sf user_idea project_id profile
      enableAutoFix).user_idea = user_idea ∧
    (generate_all_docs g rd sf user_idea project_id profile
      enableAutoFix).profile = profile ∧
    (∀ m, (generate_all_docs g rd sf user_idea project_id profile
      enableAutoFix).error = some m → ErrFrom g rd m) ∧
    (OracleOk g rd →
      (generate_all_docs g rd sf user_idea project_id profile
        enableAutoFix).error = none) := by
  have hmeta := runSteps_meta g rd sf (pipelineSteps profile enableAutoFix)
    { results :=
        { project_id := project_id, user_idea := user_idea, profile := profile,
          files := [], status := [], error := none, invoked := [] }
      charter_summary := none }
  have herr := runSteps_error_field g rd sf (pipelineSteps profile enableAutoFix)
    { results :=
        { project_id := project_id, user_idea := user_idea, profile := profile,
          files := [], status := [], error := none, invoked := [] }
      charter_summary := none }
  cases hrun : runSteps g rd sf (pipelineSteps profile enableAutoFix)
      { results :=
          { project_id := project_id, user_idea := user_idea, profile := profile,
            files := [], status := [], error := none, invoked := [] }
        charter_summary := none } with
  | ok stF =>
    rw [hrun] at hmeta herr
    simp only [outState] at hmeta herr
    have hgen : generate_all_docs g rd sf user_idea project_id profile
        enableAutoFix = stF.results := by
      simp only [generate_all_docs, hrun]
    rw [hgen]
    exact ⟨hmeta.1, hmeta.2.1, hmeta.2.2,
      fun m hm => absurd (herr.symm.trans hm) (by simp),
      fun _ => herr⟩
  | error e =>
    obtain ⟨stF, msg⟩ := e
    rw [hrun] at hmeta herr
    simp only [outState] at hmeta herr
    have hgen : generate_all_docs g rd sf user_idea project_id profile
        enableAutoFix = { stF.results with error := some msg } := by
      simp only [generate_all_docs, hrun]
    rw [hgen]
    refine ⟨hmeta.1, hmeta.2.1, hmeta.2.2, ?_, ?_⟩
    · intro m hm
      simp only at hm
      cases hm
      exact runSteps_err g rd sf _ _ _ _ hrun
    · intro hok
      obtain ⟨st', h'⟩ := runSteps_ok g rd sf hok
        (pipelineSteps profile enableAutoFix) _
      rw [hrun] at h'
      cases h'

/-! ### Claim C2 — profile gating -/

/-- The five result-keys gated on the team profile. -/
def gatedDocKeys : List String :=
  ["project_charter", "pm_documentation", "stakeholder_documentation",
   "business_model", "marketing_plan"]

/-- The eleven generation result-keys that run for every profile. -/
def ungatedDocKeys : List String :=
  ["requirements", "user_stories", "technical_documentation",
   "database_schema", "api_documentation", "setup_guide",
   "developer_documentation", "test_documentation", "user_documentation",
   "support_playbook", "legal_compliance"]

set_option maxRecDepth 8000 in
/-- Claim C2: in every run of `generate_all_docs` in which all agent calls
and context reads succeed, the `"individual"` profile skips the Project
Charter, PM Documentation, Stakeholder Communication, Business Model and
Marketing Plan steps — their agents are never invoked and their result
status is `"skipped"` — while the Requirements, User Stories, Technical
Documentation, Database Schema, API Documentation, Setup Guide, Developer
Documentation, Test Documentation, User Documentation, Support Playbook and
Legal Compliance steps are still executed (invoked, status `"complete"`);
with the `"team"` profile all sixteen steps are executed. -/
theorem c2_profile_gating (g : GenOracle) (rd : ReadOracle) (sf : GenOracle)
    (user_idea project_id : String) (enableAutoFix : Bool)
    (hok : OracleOk g rd) :
    (∀ k ∈ gatedDocKeys,
      (generate_all_docs g rd sf user_idea project_id "individual"
        enableAutoFix).status.lookup k = some "skipped" ∧
      k ∉ (generate_all_docs g rd sf user_idea project_id "individual"
        enableAutoFix).invoked) ∧
    (∀ k ∈ ungatedDocKeys,
      (generate_all_docs g rd sf user_idea project_id "individual"
        enableAutoFix).status.lookup k = some "complete" ∧
      k ∈ (generate_all_docs g rd sf user_idea project_id "individual"
        enableAutoFix).invoked) ∧
    (∀ k ∈ gatedDocKeys ++ ungatedDocKeys,
      (generate_all_docs g rd sf user_idea project_id "team"
        enableAutoFix).status.lookup k = some "complete" ∧
      k ∈ (generate_all_docs g rd sf user_idea project_id "team"
        enableAutoFix).invoked) := by
  obtain ⟨stI, hI⟩ := runSteps_ok g rd sf hok
    (pipelineSteps "individual" enableAutoFix)
    { results :=
        { project_id := project_id, user_idea := user_idea,
          profile := "individual", files := [], status := [], error := none,
          invoked := [] }
      charter_summary := none }
  obtain ⟨stT, hT⟩ := runSteps_ok g rd sf hok
    (pipelineSteps "team" enableAutoFix)
    { results :=
        { project_id := project_id, user_idea := user_idea,
          profile := "team", files := [], status := [], error := none,
          invoked := [] }
      charter_summary := none }
  have hgenI : generate_all_docs g rd sf user_idea project_id "individual"
      enableAutoFix = stI.results := by
    simp only [generate_all_docs, hI]
  have hgenT : generate_all_docs g rd sf user_idea project_id "team"
      enableAutoFix = stT.results := by
    simp only [generate_all_docs, hT]
  have hIstat : ∀ k, ¬ SoftStatusKey k →
      stI.results.status.lookup k =
        statusTrace k (pipelineSteps "individual" enableAutoFix) none :=
    fun k hks => runSteps_status g rd sf k hks _ _ _ hI
  have hTstat : ∀ k, ¬ SoftStatusKey k →
      stT.results.status.lookup k =
        statusTrace k (pipelineSteps "team" enableAutoFix) none :=
    fun k hks => runSteps_status g rd sf k hks _ _ _ hT
  have hIinv : stI.results.invoked =
      ((pipelineSteps "individual" enableAutoFix).map stepInvokes).flatten :=
    runSteps_invoked g rd sf _ _ _ hI
  have hTinv : stT.results.invoked =
      ((pipelineSteps "team" enableAutoFix).map stepInvokes).flatten :=
    runSteps_invoked g rd sf _ _ _ hT
  have hsoftG : ∀ k ∈ gatedDocKeys, ¬ SoftStatusKey k := by decide
  have hsoftU : ∀ k ∈ ungatedDocKeys, ¬ SoftStatusKey k := by decide
  have hsoftA : ∀ k ∈ gatedDocKeys ++ ungatedDocKeys, ¬ SoftStatusKey k := by
    decide
  have hfactG : ∀ k ∈ gatedDocKeys,
      statusTrace k (pipelineSteps "individual" enableAutoFix) none =
        some "skipped" ∧
      k ∉ ((pipelineSteps "individual" enableAutoFix).map
        stepInvokes).flatten := by
    cases enableAutoFix <;> decide
  have hfactU : ∀ k ∈ ungatedDocKeys,
      statusTrace k (pipelineSteps "individual" enableAutoFix) none =
        some "complete" ∧
      k ∈ ((pipelineSteps "individual" enableAutoFix).map
        stepInvokes).flatten := by
    cases enableAutoFix <;> decide
  have hfactT : ∀ k ∈ gatedDocKeys ++ ungatedDocKeys,
      statusTrace k (pipelineSteps "team" enableAutoFix) none =
        some "complete" ∧
      k ∈ ((pipelineSteps "team" enableAutoFix).map stepInvokes).flatten := by
    cases enableAutoFix <;> decide
  refine ⟨?_, ?_, ?_⟩
  · intro k hk
    rw [hgenI, hIstat k (hsoftG k hk), hIinv]
    exact hfactG k hk
  · intro k hk
    rw [hgenI, hIstat k (hsoftU k hk), hIinv]
    exact hfactU k hk
  · intro k hk
    rw [hgenT, hTstat k (hsoftA k hk), hTinv]
    exact hfactT k hk

/-- Agent oracle for the C2 witness: every call succeeds. -/
def okGen : GenOracle := fun k => .ok ("docs/" ++ k ++ ".md")

/-- Read oracle for the C2 witness: every read succeeds with content. -/
def okReads : ReadOracle := fun _ => .ok (some "content")

/-- Soft oracle for the C2 witness. -/
def okSoft : GenOracle := fun k => .ok ("out_" ++ k)

/-- Claim C2, witness: the gating at concrete oracles — an individual run
skips the Project Charter and still produces Requirements, a team run
produces the Marketing Plan. -/
theorem c2_profile_witness :
    ((generate_all_docs okGen okReads okSoft "a blog" "project_1" "individual"
      false).status.lookup "project_charter" = some "skipped" ∧
    "project_charter" ∉ (generate_all_docs okGen okReads okSoft "a blog"
      "project_1" "individual" false).invoked) ∧
    ((generate_all_docs okGen okReads okSoft "a blog" "project_1" "individual"
      false).status.lookup "requirements" = some "complete" ∧
    "requirements" ∈ (generate_all_docs okGen okReads okSoft "a blog"
      "project_1" "individual" false).invoked) ∧
    ((generate_all_docs okGen okReads okSoft "a blog" "project_1" "team"
      false).status.lookup "marketing_plan" = some "complete" ∧
    "marketing_plan" ∈ (generate_all_docs okGen okReads okSoft "a blog"
      "project_1" "team" false).invoked) := by
  have h := c2_profile_gating okGen okReads okSoft "a blog" "project_1" false
    ⟨fun k => ⟨"docs/" ++ k ++ ".md", rfl⟩,
     fun k => ⟨some "content", rfl⟩, ⟨"content", rfl⟩⟩
  exact ⟨h.1 "project_charter" (by decide),
    h.2.1 "requirements" (by decide),
    h.2.2 "marketing_plan" (by decide)⟩

end OmniDoc
